import Mathlib

/-!
PFCP transaction layer (`internal/pfcp/transaction.go`, `internal/pfcp/heartbeat.go`)

A shallow embedding of the outbound (`TxTransaction`) and inbound
(`RxTransaction`) transactions of the UPF's PFCP server, and theorems about
them.

Conventions of the embedding.

* A `net.Addr` is represented by its `String()` rendering.
* `uint32`/`uint8`/`time.Duration` values are `Nat`/`Nat`/`Int`; the places
  where the Go arithmetic is carried out at a fixed width reduce explicitly.
* The methods have pointer receivers.  A method is a function from the
  receiver object and the server state to the new receiver object and the
  new server state.  The transaction tables of the server hold references to
  the objects, so a table maps an identifier to an object reference.
* A `*time.Timer` is an index into the list of timers the server state
  carries; `time.AfterFunc` appends an armed timer to that list.
* `conn.WriteTo` appends the datagram to the list of writes; whether the
  k-th write fails is read from `connResults`, which is arbitrary.
* A result `none` of a method is a run-time panic (nil dereference).
-/

namespace Pfcp

/-! ## `fmt.Sprintf("%s-%#x", raddr, seq)` -/

/-- The digit table of Go's `fmt` package (`ldigits`). -/
def ldigits : List Char :=
  ['0', '1', '2', '3', '4', '5', '6', '7', '8', '9', 'a', 'b', 'c', 'd', 'e', 'f', 'x']

/-- The base-16 loop of `fmt.fmtInteger`: digits are written from the least
significant one, in front of what the buffer already holds.  `fuel` bounds
the number of iterations; 8 hex digits are enough for a `uint32`. -/
def fmtHexLoop : Nat → Nat → List Char → List Char
  | 0, u, buf => ldigits.getD u '?' :: buf
  | fuel + 1, u, buf =>
    if 16 ≤ u then fmtHexLoop fuel (u / 16) (ldigits.getD (u % 16) '?' :: buf)
    else ldigits.getD u '?' :: buf

/-- The verb `%#x` applied to a `uint32`: the hex digits with the `0x` prefix. -/
def fmtSharpHex (u : Nat) : List Char :=
  '0' :: 'x' :: fmtHexLoop 7 u []

/-- Source: `TransactionID` (transaction.go, 41-43). -/
def TransactionID (raddr : String) (seq : Nat) : String :=
  raddr ++ "-" ++ String.mk (fmtSharpHex seq)

/-- The value of a hex digit: its place in `ldigits`. -/
def hexDigitVal (c : Char) : Nat := ldigits.indexOf c

/-- The number a list of hex digits denotes, most significant digit first. -/
def hexVal (cs : List Char) : Nat := cs.foldl (fun v c => v * 16 + hexDigitVal c) 0

/-! ## Data model -/

/-- The `message.Message` interface of go-pfcp, reduced to what the
transaction layer can observe: the message type, the sequence number of the
header, and the remaining content. -/
structure Message where
  msgType : Nat
  seq : Nat
  body : List Nat
deriving DecidableEq

/-- The serialisation of a message, `b := make([]byte, m.MarshalLen())`
followed by `m.MarshalTo(b)`: the bytes, or the error of `MarshalTo`.  It
belongs to go-pfcp and is a parameter of the embedding. -/
abbrev Codec := Message → Except String (List Nat)

/-- The transaction kinds `TX` and `RX` passed to `NotifyTransTimeout`. -/
inductive TransType where
  | TX
  | RX
deriving DecidableEq

/-- A timer made by `time.AfterFunc(d, f)`, where `f` is
`func() { server.NotifyTransTimeout(trType, trID) }`. -/
structure Timer where
  armedAt : Int
  d : Int
  trType : TransType
  trID : String
  active : Bool
deriving DecidableEq

/-- One call of `conn.WriteTo(buf, addr)`: when it was made, its arguments
and the error it returned. -/
structure Datagram where
  time : Int
  buf : List Nat
  addr : String
  err : Option String
deriving DecidableEq

/-- One call of the callback `txtoDispacher(req, addr)`. -/
structure Escalation where
  time : Int
  req : Option Message
  addr : String
deriving DecidableEq

/-- The part `cfg.Pfcp` of the configuration: `RetransTimeout` is a
`time.Duration` (nanoseconds, `int64`), `MaxRetrans` a `uint8`. -/
structure PfcpConfig where
  RetransTimeout : Int
  MaxRetrans : Nat
deriving DecidableEq

/-- The state of `PfcpServer` the transactions read and write, with the
clock, the timers of the Go runtime, the traffic on `conn` and the timeout
notifications waiting for the receive loop. -/
structure PfcpServer where
  cfg : PfcpConfig
  txTrans : List (String × Nat)
  rxTrans : List (String × Nat)
  now : Int
  timers : List Timer
  writes : List Datagram
  connResults : List (Option String)
  escalated : List Escalation
  recoveryTime : Nat
  timeoutEvents : List (TransType × String)
deriving DecidableEq

/-- Source: `TxTransaction` (transaction.go, 15-27), without `server` and `log`. -/
structure TxTransaction where
  raddr : String
  seq : Nat
  id : String
  retransTimeout : Int
  maxRetrans : Nat
  req : Option Message
  msgBuf : List Nat
  timer : Option Nat
  retransCount : Nat
deriving DecidableEq

/-- Source: `RxTransaction` (transaction.go, 29-39), without `server` and `log`. -/
structure RxTransaction where
  raddr : String
  seq : Nat
  id : String
  timeout : Int
  rsp : Option Message
  msgBuf : List Nat
  timer : Option Nat
deriving DecidableEq

/-! ## Primitives of the Go runtime and of the server -/

/-- The value an `int64` holds after an arithmetic result `x` wrapped around. -/
def wrapInt64 (x : Int) : Int := (x + 2 ^ 63) % 2 ^ 64 - 2 ^ 63

/-- The builtin `delete(m, k)` on a map. -/
def mapDelete (m : List (String × Nat)) (k : String) : List (String × Nat) :=
  m.filter (fun e => e.1 != k)

/-- The call `errors.Wrapf(err, msg)`: the message put in front of the cause. -/
def wrapf (err : String) (msg : String) : String := msg ++ ": " ++ err

/-- The error the call number `n` of `conn.WriteTo` returns (`none`: the
write succeeds), read from the list of outcomes `cr`. -/
def connResult (cr : List (Option String)) (n : Nat) : Option String :=
  cr.getD n none

/-- The call `s.conn.WriteTo(b, addr)`: the write is recorded and its error,
if any, is the one `connResults` holds for this write. -/
def PfcpServer.WriteTo (s : PfcpServer) (b : List Nat) (addr : String) :
    PfcpServer × Option String :=
  let err := connResult s.connResults s.writes.length
  ({ s with writes := s.writes ++ [{ time := s.now, buf := b, addr := addr, err := err }] }, err)

/-- The call `time.AfterFunc(d, func() { s.NotifyTransTimeout(ty, id) })`: a
new armed timer; the result is the reference to it. -/
def PfcpServer.AfterFunc (s : PfcpServer) (d : Int) (ty : TransType) (id : String) :
    PfcpServer × Nat :=
  ({ s with timers := s.timers ++
      [{ armedAt := s.now, d := d, trType := ty, trID := id, active := true }] },
   s.timers.length)

/-- Timer number `t` of the list made inactive. -/
def disarm : Nat → List Timer → List Timer
  | _, [] => []
  | 0, x :: xs => { x with active := false } :: xs
  | t + 1, x :: xs => x :: disarm t xs

/-- The call `timer.Stop()` on the timer with reference `t`. -/
def PfcpServer.stopTimer (s : PfcpServer) (t : Nat) : PfcpServer :=
  { s with timers := disarm t s.timers }

/-- Whether the timer with reference `t` is armed. -/
def PfcpServer.armed (s : PfcpServer) (t : Nat) : Bool :=
  match s.timers.get? t with
  | some x => x.active
  | none => false

/-- Modelled from the spec: `setReqSeq`, a function of this package that is
not in the two source files; it "assigns the transaction's sequence number
into the request". -/
def setReqSeq (req : Message) (seq : Nat) : Message :=
  { req with seq := seq }

/-- Modelled from the spec: `txtoDispacher`, a method of the server that is
not in the two source files: the "failure-escalation callback invoked with
the original request and peer".  The call is recorded; the error it returns
is only logged by its caller. -/
def PfcpServer.txtoDispacher (s : PfcpServer) (req : Option Message) (addr : String) :
    PfcpServer :=
  { s with escalated := s.escalated ++ [{ time := s.now, req := req, addr := addr }] }

/-! ## Outbound transactions -/

/-- Source: `NewTxTransaction` (transaction.go, 45-60). -/
def NewTxTransaction (s : PfcpServer) (raddr : String) (seq : Nat) : TxTransaction :=
  { raddr := raddr
    seq := seq
    id := TransactionID raddr seq
    retransTimeout := s.cfg.RetransTimeout
    maxRetrans := s.cfg.MaxRetrans
    req := none
    msgBuf := []
    timer := none
    retransCount := 0 }

/-- Source: `TxTransaction.startTimer` (transaction.go, 116-125). -/
def TxTransaction.startTimer (tx : TxTransaction) (s : PfcpServer) : PfcpServer × Nat :=
  s.AfterFunc tx.retransTimeout TransType.TX tx.id

/-- Source: `TxTransaction.send` (transaction.go, 62-82).  The result is the
transaction, the server and the returned error. -/
def TxTransaction.send (codec : Codec) (tx : TxTransaction) (s : PfcpServer) (req : Message) :
    TxTransaction × PfcpServer × Option String :=
  let req := setReqSeq req tx.seq
  match codec req with
  | Except.error e => (tx, s, some (wrapf e ("txtr[" ++ tx.id ++ "] send")))
  | Except.ok b =>
    let tx1 := { tx with req := some req, msgBuf := b }
    let st := tx1.startTimer s
    let tx2 := { tx1 with timer := some st.2 }
    let sw := st.1.WriteTo b tx2.raddr
    match sw.2 with
    | some e => (tx2, sw.1, some (wrapf e ("txtr[" ++ tx.id ++ "] send")))
    | none => (tx2, sw.1, none)

/-- Source: `TxTransaction.recv` (transaction.go, 84-93).  The result is the
transaction, the server and the returned message; `tx.timer.Stop()` on a nil
timer panics. -/
def TxTransaction.recv (tx : TxTransaction) (s : PfcpServer) (_rsp : Message) :
    Option (TxTransaction × PfcpServer × Option Message) :=
  match tx.timer with
  | none => none
  | some t =>
    let s1 := s.stopTimer t
    let tx1 := { tx with timer := none }
    some (tx1, { s1 with txTrans := mapDelete s1.txTrans tx1.id }, tx1.req)

/-- Source: `TxTransaction.handleTimeout` (transaction.go, 95-114).
`tx.req.MessageTypeName()` on a nil request panics. -/
def TxTransaction.handleTimeout (tx : TxTransaction) (s : PfcpServer) :
    Option (TxTransaction × PfcpServer) :=
  if tx.retransCount < tx.maxRetrans then
    let tx1 := { tx with retransCount := (tx.retransCount + 1) % 256 }
    match tx1.req with
    | none => none
    | some _ =>
      let sw := s.WriteTo tx1.msgBuf tx1.raddr
      let st := tx1.startTimer sw.1
      some ({ tx1 with timer := some st.2 }, st.1)
  else
    let s1 := { s with txTrans := mapDelete s.txTrans tx.id }
    some (tx, s1.txtoDispacher tx.req tx.raddr)

/-! ## Inbound transactions -/

/-- Source: `RxTransaction.startTimer` (transaction.go, 190-199). -/
def RxTransaction.startTimer (rx : RxTransaction) (s : PfcpServer) : PfcpServer × Nat :=
  s.AfterFunc rx.timeout TransType.RX rx.id

/-- Source: `NewRxTransaction` (transaction.go, 127-143).  `MaxRetrans+1` is
a `uint8` sum, converted to `time.Duration` afterwards; the product is an
`int64` product. -/
def NewRxTransaction (s : PfcpServer) (raddr : String) (seq : Nat) :
    RxTransaction × PfcpServer :=
  let rx : RxTransaction :=
    { raddr := raddr
      seq := seq
      id := TransactionID raddr seq
      timeout := wrapInt64 (s.cfg.RetransTimeout * (((s.cfg.MaxRetrans + 1) % 256 : Nat) : Int))
      rsp := none
      msgBuf := []
      timer := none }
  let st := rx.startTimer s
  ({ rx with timer := some st.2 }, st.1)

/-- Source: `RxTransaction.send` (transaction.go, 145-161). -/
def RxTransaction.send (codec : Codec) (rx : RxTransaction) (s : PfcpServer) (rsp : Message) :
    RxTransaction × PfcpServer × Option String :=
  match codec rsp with
  | Except.error e => (rx, s, some (wrapf e ("rxtr[" ++ rx.id ++ "] send")))
  | Except.ok b =>
    let rx1 := { rx with rsp := some rsp, msgBuf := b }
    let sw := s.WriteTo b rx1.raddr
    match sw.2 with
    | some e => (rx1, sw.1, some (wrapf e ("rxtr[" ++ rx.id ++ "] send")))
    | none => (rx1, sw.1, none)

/-- Source: `RxTransaction.recv` (transaction.go, 163-183).  The result is the
transaction, the server, the flag and the error;
`rx.rsp.MessageTypeName()` on a nil response panics. -/
def RxTransaction.recv (rx : RxTransaction) (s : PfcpServer) (_req : Message)
    (rxTrFound : Bool) : Option (RxTransaction × PfcpServer × Bool × Option String) :=
  if !rxTrFound then some (rx, s, true, none)
  else if rx.msgBuf.length = 0 then some (rx, s, false, none)
  else
    match rx.rsp with
    | none => none
    | some _ =>
      let sw := s.WriteTo rx.msgBuf rx.raddr
      match sw.2 with
      | some e => some (rx, sw.1, false, some (wrapf e ("rxtr[" ++ rx.id ++ "] retransmit rsp")))
      | none => some (rx, sw.1, false, none)

/-- Source: `RxTransaction.handleTimeout` (transaction.go, 185-188). -/
def RxTransaction.handleTimeout (rx : RxTransaction) (s : PfcpServer) :
    RxTransaction × PfcpServer :=
  (rx, { s with rxTrans := mapDelete s.rxTrans rx.id })

/-! ## Sequences of timeout events -/

/-- The transaction handles `k` timeout events, one after the other. -/
def TxTransaction.timeouts :
    Nat → TxTransaction → PfcpServer → Option (TxTransaction × PfcpServer)
  | 0, tx, s => some (tx, s)
  | k + 1, tx, s =>
    match tx.handleTimeout s with
    | none => none
    | some r => TxTransaction.timeouts k r.1 r.2

/-! ## Timers firing

The timers run in the Go runtime: a timer made by `time.AfterFunc(d, f)` at
time `t` calls `f` at `t + d`.  The callbacks of the transactions only call
`NotifyTransTimeout`; the notification is handled by the receive loop of the
server, which is not in the two source files. -/

/-- The assignment `m[k] = v` on a map. -/
def mapInsert (m : List (String × Nat)) (k : String) (v : Nat) : List (String × Nat) :=
  (k, v) :: mapDelete m k

/-- The armed timer with reference `t` expires: the clock stands at the
deadline of the timer, and the timer is spent.  The result is `none` when
there is no such timer or it is not armed. -/
def PfcpServer.expire (s : PfcpServer) (t : Nat) : Option PfcpServer :=
  match s.timers.get? t with
  | none => none
  | some x =>
    if x.active then
      some { s with now := max s.now (x.armedAt + x.d), timers := disarm t s.timers }
    else none

/-- Modelled from the spec: the handling of a timeout notification for an
outbound transaction by the dispatch loop, which is not in the two source
files: it "looks up the identified transaction and, if still present (it may
have been removed already by a race between firing and draining — this must
be tolerated as a no-op), invokes its `onTimeout`".  `tx` is the object the
table entry refers to. -/
def PfcpServer.dispatchTxTimeout (s : PfcpServer) (tx : TxTransaction) :
    Option (TxTransaction × PfcpServer) :=
  match s.txTrans.lookup tx.id with
  | none => some (tx, s)
  | some _ => tx.handleTimeout s

/-- The timer of the transaction fires and its notification is dispatched.
Nothing happens when the transaction holds no armed timer. -/
def TxTransaction.timerFires (tx : TxTransaction) (s : PfcpServer) :
    Option (TxTransaction × PfcpServer) :=
  match tx.timer with
  | none => some (tx, s)
  | some t =>
    match s.expire t with
    | none => some (tx, s)
    | some s1 => s1.dispatchTxTimeout tx

/-- The timer of the transaction fires `k` times in a row, as far as it is armed. -/
def TxTransaction.fires :
    Nat → TxTransaction → PfcpServer → Option (TxTransaction × PfcpServer)
  | 0, tx, s => some (tx, s)
  | k + 1, tx, s =>
    match tx.timerFires s with
    | none => none
    | some r => TxTransaction.fires k r.1 r.2

/-! ## A concrete configuration

The scenario of the specification: retransmission interval 1 s, at most 3
retransmissions, a request with sequence number 0x10 to the peer
`10.0.0.1:8805`. -/

/-- One second, as a `time.Duration`. -/
def second : Int := 1000000000

/-- A codec that always succeeds: version octet, type, length and the four
octets of the sequence number in front of the body. -/
def scenarioCodec : Codec := fun m =>
  Except.ok ([32, m.msgType % 256, 0, (m.body.length + 4) % 256, m.seq / 16777216 % 256,
    m.seq / 65536 % 256, m.seq / 256 % 256, m.seq % 256] ++ m.body)

/-- A codec that always fails. -/
def failingCodec : Codec := fun _ => Except.error "marshal"

/-- The peer of the scenario. -/
def scenarioPeer : String := "10.0.0.1:8805"

/-- A server with the configuration of the scenario, no transaction, no
timer and no traffic, at time 0; every write succeeds. -/
def scenarioServer : PfcpServer :=
  { cfg := { RetransTimeout := second, MaxRetrans := 3 }
    txTrans := []
    rxTrans := []
    now := 0
    timers := []
    writes := []
    connResults := []
    escalated := []
    recoveryTime := 0
    timeoutEvents := [] }

/-- A heartbeat request (message type 1) as handed to `send`. -/
def scenarioReq : Message := { msgType := 1, seq := 0, body := [96, 0, 4, 0, 0, 0, 0] }

/-- The server of the scenario once the transaction for `(raddr, seq)` has
been put into the outbound table, under the object reference `ref`. -/
def scenarioStart (raddr : String) (seq : Nat) (ref : Nat) : PfcpServer :=
  { scenarioServer with
    txTrans := mapInsert scenarioServer.txTrans (TransactionID raddr seq) ref }

/-- The scenario at t = 0 s: a new outbound transaction sends `req`. -/
def scenarioSent (codec : Codec) (req : Message) (raddr : String) (seq ref : Nat) :
    TxTransaction × PfcpServer × Option String :=
  (NewTxTransaction (scenarioStart raddr seq ref) raddr seq).send codec
    (scenarioStart raddr seq ref) req

/-- The scenario after the timer of the transaction has fired `k` times. -/
def scenarioAfter (k : Nat) (codec : Codec) (req : Message) (raddr : String) (seq ref : Nat) :
    Option (TxTransaction × PfcpServer) :=
  (scenarioSent codec req raddr seq ref).1.fires k (scenarioSent codec req raddr seq ref).2.1

/-- The server of the scenario on a connection whose first write fails. -/
def unreachableServer : PfcpServer :=
  { scenarioServer with connResults := [some "sendto: network is unreachable"] }

/-- The server of the scenario with `MaxRetrans` set to 255. -/
def maxedServer : PfcpServer :=
  { scenarioServer with cfg := { RetransTimeout := second, MaxRetrans := 255 } }

/-- A heartbeat response (message type 2) as handed to `RxTransaction.send`. -/
def scenarioRsp : Message := { msgType := 2, seq := 32, body := [96, 0, 4, 0, 0, 0, 0] }

/-! ## Timeout notifications and the inbound timer -/

/-- Modelled from the spec: `NotifyTransTimeout`, a method of the server that
is not in the two source files: a timer that fires "enqueues a timeout
notification (tagged with transaction kind — outbound or inbound — and
identifier) into the same ordered event stream that inbound datagrams are
delivered through". -/
def PfcpServer.NotifyTransTimeout (s : PfcpServer) (ty : TransType) (id : String) :
    PfcpServer :=
  { s with timeoutEvents := s.timeoutEvents ++ [(ty, id)] }

/-- The function `func() { tx.server.NotifyTransTimeout(TX, tx.id) }` that
`TxTransaction.startTimer` hands to `time.AfterFunc`, called. -/
def TxTransaction.timerCallback (tx : TxTransaction) (s : PfcpServer) :
    TxTransaction × PfcpServer :=
  (tx, s.NotifyTransTimeout TransType.TX tx.id)

/-- The function `func() { rx.server.NotifyTransTimeout(RX, rx.id) }` that
`RxTransaction.startTimer` hands to `time.AfterFunc`, called. -/
def RxTransaction.timerCallback (rx : RxTransaction) (s : PfcpServer) :
    RxTransaction × PfcpServer :=
  (rx, s.NotifyTransTimeout TransType.RX rx.id)

/-- The runtime runs the armed timer with reference `t`: the timer expires
and the function it was made with is called.  The result is `none` when there
is no such timer or it is not armed. -/
def PfcpServer.runTimer (s : PfcpServer) (t : Nat) : Option PfcpServer :=
  match s.timers.get? t with
  | none => none
  | some x => (s.expire t).map (fun s1 => s1.NotifyTransTimeout x.trType x.trID)

/-- Modelled from the spec: the handling of a timeout notification for an
inbound transaction by the dispatch loop, which is not in the two source
files: it "looks up the identified transaction and, if still present ...,
invokes its `onTimeout`"; an absent entry is a no-op.  `rx` is the object the
table entry refers to. -/
def PfcpServer.dispatchRxTimeout (s : PfcpServer) (rx : RxTransaction) :
    RxTransaction × PfcpServer :=
  match s.rxTrans.lookup rx.id with
  | none => (rx, s)
  | some _ => rx.handleTimeout s

/-- The timer of the inbound transaction fires and its notification is
dispatched.  Nothing happens when the transaction holds no armed timer. -/
def RxTransaction.timerFires (rx : RxTransaction) (s : PfcpServer) :
    RxTransaction × PfcpServer :=
  match rx.timer with
  | none => (rx, s)
  | some t =>
    match s.expire t with
    | none => (rx, s)
    | some s1 => s1.dispatchRxTimeout rx

/-! ## Sequences of calls -/

/-- A call on an inbound transaction other than its timeout. -/
inductive RxOp where
  | send (rsp : Message)
  | recv (req : Message) (rxTrFound : Bool)
deriving DecidableEq

/-- One call on an inbound transaction; the returned values are dropped. -/
def RxTransaction.step (codec : Codec) (op : RxOp) (rx : RxTransaction) (s : PfcpServer) :
    Option (RxTransaction × PfcpServer) :=
  match op with
  | RxOp.send rsp => some ((rx.send codec s rsp).1, (rx.send codec s rsp).2.1)
  | RxOp.recv req found => (rx.recv s req found).map (fun r => (r.1, r.2.1))

/-- A sequence of calls on an inbound transaction. -/
def RxTransaction.runOps (codec : Codec) :
    List RxOp → RxTransaction → PfcpServer → Option (RxTransaction × PfcpServer)
  | [], rx, s => some (rx, s)
  | op :: ops, rx, s =>
    match rx.step codec op s with
    | none => none
    | some r => RxTransaction.runOps codec ops r.1 r.2

/-- A call on an outbound transaction. -/
inductive TxOp where
  | send (req : Message)
  | handleTimeout
  | recv (rsp : Message)
deriving DecidableEq

/-- One call on an outbound transaction; the returned values are dropped. -/
def TxTransaction.step (codec : Codec) (op : TxOp) (tx : TxTransaction) (s : PfcpServer) :
    Option (TxTransaction × PfcpServer) :=
  match op with
  | TxOp.send req => some ((tx.send codec s req).1, (tx.send codec s req).2.1)
  | TxOp.handleTimeout => tx.handleTimeout s
  | TxOp.recv rsp => (tx.recv s rsp).map (fun r => (r.1, r.2.1))

/-- A sequence of calls on an outbound transaction. -/
def TxTransaction.runOps (codec : Codec) :
    List TxOp → TxTransaction → PfcpServer → Option (TxTransaction × PfcpServer)
  | [], tx, s => some (tx, s)
  | op :: ops, tx, s =>
    match tx.step codec op s with
    | none => none
    | some r => TxTransaction.runOps codec ops r.1 r.2

/-! ## The heartbeat handler -/

/-- The call `ie.NewRecoveryTimeStamp(t)` of go-pfcp: the information element
of type 96 with the four octets of the time stamp. -/
def NewRecoveryTimeStamp (t : Nat) : List Nat :=
  [0, 96, 0, 4, t / 16777216 % 256, t / 65536 % 256, t / 256 % 256, t % 256]

/-- The call `message.NewHeartbeatResponse(seq, ie)` of go-pfcp: a message of
type 2 with the given sequence number and information element. -/
def NewHeartbeatResponse (seq : Nat) (ie : List Nat) : Message :=
  { msgType := 2, seq := seq, body := ie }

/-- Source: `PfcpServer.handleHeartbeatRequest` (heartbeat.go, 10-23).
`sendRspTo` is a method of the server that is not in the two source files and
is a parameter here: from the server, the response and the address to the
server afterwards and the returned error.  The error is only logged. -/
def PfcpServer.handleHeartbeatRequest
    (sendRspTo : PfcpServer → Message → String → PfcpServer × Option String)
    (s : PfcpServer) (req : Message) (addr : String) : PfcpServer :=
  let rsp := NewHeartbeatResponse req.seq (NewRecoveryTimeStamp s.recoveryTime)
  match sendRspTo s rsp addr with
  | (s1, some _) => s1
  | (s1, none) => s1

/-- Modelled from the spec: the routing of a received response by the
dispatch loop, which is not in the two source files: "the layer matches it to
a live Tx transaction by identifier and, if matched, completes it; if
unmatched, the response is reported as unexpected/stale (not an error, just
dropped)".  `tx` is the object the table entry refers to; the last component
of the result is the request handed back on completion. -/
def PfcpServer.dispatchResponse (s : PfcpServer) (tx : TxTransaction) (rsp : Message) :
    Option (TxTransaction × PfcpServer × Option Message) :=
  match s.txTrans.lookup tx.id with
  | none => some (tx, s, none)
  | some _ => tx.recv s rsp

/-! ## Lemmas on the identifier -/

theorem ldigits_getD_ne_dash (u : Nat) : ldigits.getD u '?' ≠ '-' := by
  by_cases h : u < 17
  · interval_cases u <;> decide
  · rw [List.getD_eq_default _ _ (by simpa [ldigits] using h)]
    decide

theorem hexDigitVal_getD (u : Nat) (h : u < 16) : hexDigitVal (ldigits.getD u '?') = u := by
  interval_cases u <;> decide

theorem fmtHexLoop_no_dash (fuel : Nat) :
    ∀ (u : Nat) (buf : List Char), '-' ∉ buf → '-' ∉ fmtHexLoop fuel u buf := by
  induction fuel with
  | zero =>
    intro u buf hb
    simp only [fmtHexLoop, List.mem_cons, not_or]
    exact ⟨fun h => ldigits_getD_ne_dash u h.symm, hb⟩
  | succ n ih =>
    intro u buf hb
    simp only [fmtHexLoop]
    split
    · apply ih
      simp only [List.mem_cons, not_or]
      exact ⟨fun h => ldigits_getD_ne_dash _ h.symm, hb⟩
    · simp only [List.mem_cons, not_or]
      exact ⟨fun h => ldigits_getD_ne_dash u h.symm, hb⟩

theorem fmtHexLoop_foldl (fuel : Nat) :
    ∀ (u : Nat) (buf : List Char), u < 16 ^ (fuel + 1) →
      (fmtHexLoop fuel u buf).foldl (fun v c => v * 16 + hexDigitVal c) 0
        = buf.foldl (fun v c => v * 16 + hexDigitVal c) u := by
  induction fuel with
  | zero =>
    intro u buf hu
    have hu' : u < 16 := by simpa using hu
    simp only [fmtHexLoop, List.foldl_cons, zero_mul, zero_add, hexDigitVal_getD u hu']
  | succ n ih =>
    intro u buf hu
    simp only [fmtHexLoop]
    split
    · have hlt : u / 16 < 16 ^ (n + 1) := by
        rw [Nat.div_lt_iff_lt_mul (by norm_num)]
        calc u < 16 ^ (n + 1 + 1) := hu
          _ = 16 ^ (n + 1) * 16 := by ring
      rw [ih _ _ hlt]
      have hm : u % 16 < 16 := Nat.mod_lt _ (by norm_num)
      simp only [List.foldl_cons, hexDigitVal_getD _ hm]
      congr 1
      omega
    · have hu' : u < 16 := by omega
      simp only [List.foldl_cons, zero_mul, zero_add, hexDigitVal_getD u hu']

theorem hexVal_fmtHexLoop (u : Nat) (hu : u < 2 ^ 32) : hexVal (fmtHexLoop 7 u []) = u := by
  unfold hexVal
  rw [fmtHexLoop_foldl 7 u [] (by norm_num; omega)]
  rfl

/-- Two lists that agree after being cut at a separator that does not occur
in either tail have the same heads and the same tails. -/
theorem append_sep_inj {c : Char} :
    ∀ (l₁ l₂ r₁ r₂ : List Char), c ∉ r₁ → c ∉ r₂ →
      l₁ ++ c :: r₁ = l₂ ++ c :: r₂ → l₁ = l₂ ∧ r₁ = r₂ := by
  intro l₁
  induction l₁ with
  | nil =>
    intro l₂ r₁ r₂ h₁ _ h
    cases l₂ with
    | nil => simpa using h
    | cons x xs =>
      exfalso
      simp only [List.nil_append, List.cons_append, List.cons.injEq] at h
      apply h₁
      rw [h.2]
      simp
  | cons y ys ih =>
    intro l₂ r₁ r₂ h₁ h₂ h
    cases l₂ with
    | nil =>
      exfalso
      simp only [List.nil_append, List.cons_append, List.cons.injEq] at h
      apply h₂
      rw [← h.2]
      simp
    | cons x xs =>
      simp only [List.cons_append, List.cons.injEq] at h
      obtain ⟨hxy, hrest⟩ := h
      obtain ⟨hl, hr⟩ := ih xs r₁ r₂ h₁ h₂ hrest
      exact ⟨by rw [hxy, hl], hr⟩

theorem fmtSharpHex_no_dash (u : Nat) : '-' ∉ fmtSharpHex u := by
  unfold fmtSharpHex
  simp only [List.mem_cons, not_or]
  refine ⟨by decide, by decide, ?_⟩
  exact fmtHexLoop_no_dash 7 u [] (by simp)

theorem TransactionID_data (raddr : String) (seq : Nat) :
    (TransactionID raddr seq).data = raddr.data ++ '-' :: fmtSharpHex seq := by
  simp [TransactionID, String.data_append]

/-! ## Lemmas on the outbound transaction -/

/-- The retransmitting branch of `handleTimeout`, as one equation. -/
theorem TxTransaction.handleTimeout_retransmit (tx : TxTransaction) (s : PfcpServer)
    (r : Message) (hr : tx.req = some r) (hc : tx.retransCount < tx.maxRetrans) :
    tx.handleTimeout s = some
      ({ tx with retransCount := (tx.retransCount + 1) % 256, timer := some s.timers.length },
       { s with
          writes := s.writes ++ [{ time := s.now, buf := tx.msgBuf, addr := tx.raddr,
                                   err := connResult s.connResults s.writes.length }]
          timers := s.timers ++ [{ armedAt := s.now, d := tx.retransTimeout,
                                   trType := TransType.TX, trID := tx.id, active := true }] }) := by
  simp [TxTransaction.handleTimeout, hc, hr, TxTransaction.startTimer, PfcpServer.AfterFunc,
    PfcpServer.WriteTo]

/-- The escalating branch of `handleTimeout`, as one equation. -/
theorem TxTransaction.handleTimeout_escalate (tx : TxTransaction) (s : PfcpServer)
    (hc : ¬ tx.retransCount < tx.maxRetrans) :
    tx.handleTimeout s = some
      (tx, { s with
              txTrans := mapDelete s.txTrans tx.id
              escalated := s.escalated ++ [{ time := s.now, req := tx.req, addr := tx.raddr }] }) := by
  simp [TxTransaction.handleTimeout, hc, PfcpServer.txtoDispacher]

/-- What `k` timeouts do to a transaction that still has `k` retransmissions
left: `k` writes of the stored bytes to the peer, `k` new timers, nothing else. -/
theorem TxTransaction.timeouts_retransmit (k : Nat) :
    ∀ (tx : TxTransaction) (s : PfcpServer) (r : Message), tx.req = some r →
      tx.retransCount + k ≤ tx.maxRetrans → tx.maxRetrans < 256 →
      ∃ tx' s' ws, tx.timeouts k s = some (tx', s') ∧
        tx'.req = tx.req ∧ tx'.msgBuf = tx.msgBuf ∧ tx'.raddr = tx.raddr ∧ tx'.id = tx.id ∧
        tx'.seq = tx.seq ∧ tx'.retransTimeout = tx.retransTimeout ∧
        tx'.maxRetrans = tx.maxRetrans ∧ tx'.retransCount = tx.retransCount + k ∧
        (tx.timer.isSome → tx'.timer.isSome) ∧
        s'.writes = s.writes ++ ws ∧ ws.length = k ∧
        (∀ w ∈ ws, w.buf = tx.msgBuf ∧ w.addr = tx.raddr ∧ w.time = s.now) ∧
        s'.timers.length = s.timers.length + k ∧
        s'.escalated = s.escalated ∧ s'.txTrans = s.txTrans ∧ s'.rxTrans = s.rxTrans ∧
        s'.now = s.now ∧ s'.cfg = s.cfg ∧ s'.connResults = s.connResults := by
  induction k with
  | zero =>
    intro tx s r _ _ _
    exact ⟨tx, s, [], by simp [TxTransaction.timeouts]⟩
  | succ n ih =>
    intro tx s r hr hk hm
    have hc : tx.retransCount < tx.maxRetrans := by omega
    have hmod : (tx.retransCount + 1) % 256 = tx.retransCount + 1 := by
      apply Nat.mod_eq_of_lt; omega
    obtain ⟨tx', s', ws, hrun, h1, h2, h3, h4, h5, h6, h7, h8, h9, h10, h11, h12, h13, h14,
      h15, h16, h17, h18, h19⟩ :=
      ih { tx with retransCount := (tx.retransCount + 1) % 256, timer := some s.timers.length }
        { s with
          writes := s.writes ++ [{ time := s.now, buf := tx.msgBuf, addr := tx.raddr,
                                   err := connResult s.connResults s.writes.length }]
          timers := s.timers ++ [{ armedAt := s.now, d := tx.retransTimeout,
                                   trType := TransType.TX, trID := tx.id, active := true }] }
        r hr (by simp only [hmod]; omega) hm
    simp only [hmod] at h8
    refine ⟨tx', s', { time := s.now, buf := tx.msgBuf, addr := tx.raddr,
                       err := connResult s.connResults s.writes.length } :: ws, ?_, h1, h2, h3, h4, h5, h6, h7, by omega,
      fun _ => h9 rfl, ?_, by simp [h11], ?_, ?_, h14, h15, h16, h17, h18, h19⟩
    · simp only [TxTransaction.timeouts, TxTransaction.handleTimeout_retransmit tx s r hr hc,
        hrun]
    · simp [h10]
    · intro w hw
      rcases List.mem_cons.mp hw with hw | hw
      · subst hw; exact ⟨rfl, rfl, rfl⟩
      · exact h12 w hw
    · simp only [h13, List.length_append, List.length_singleton]; omega

/-- Once the retransmissions are used up, timeouts handled by the object
neither write to the peer nor arm a timer. -/
theorem TxTransaction.timeouts_exhausted (k : Nat) :
    ∀ (tx : TxTransaction) (s : PfcpServer), ¬ tx.retransCount < tx.maxRetrans →
      ∃ s', tx.timeouts k s = some (tx, s') ∧ s'.writes = s.writes ∧ s'.timers = s.timers := by
  induction k with
  | zero =>
    intro tx s _
    exact ⟨s, rfl, rfl, rfl⟩
  | succ n ih =>
    intro tx s hc
    obtain ⟨s', hrun, hw, ht⟩ := ih tx
      { s with
        txTrans := mapDelete s.txTrans tx.id
        escalated := s.escalated ++ [{ time := s.now, req := tx.req, addr := tx.raddr }] } hc
    exact ⟨s', by simp only [TxTransaction.timeouts, TxTransaction.handleTimeout_escalate tx s hc,
      hrun], hw, ht⟩

/-- A successful `send`, as equations on the transaction and the server. -/
theorem TxTransaction.txSend_ok (codec : Codec) (tx tx1 : TxTransaction) (s s1 : PfcpServer)
    (req : Message) (h : tx.send codec s req = (tx1, s1, none)) :
    ∃ b, codec (setReqSeq req tx.seq) = Except.ok b ∧
      connResult s.connResults s.writes.length = none ∧
      tx1 = { tx with req := some (setReqSeq req tx.seq), msgBuf := b,
                      timer := some s.timers.length } ∧
      s1 = { s with
              writes := s.writes ++ [{ time := s.now, buf := b, addr := tx.raddr, err := none }]
              timers := s.timers ++ [{ armedAt := s.now, d := tx.retransTimeout,
                                       trType := TransType.TX, trID := tx.id, active := true }] } := by
  unfold TxTransaction.send at h
  cases hc : codec (setReqSeq req tx.seq) with
  | error e => simp [hc] at h
  | ok b =>
    cases hw : connResult s.connResults s.writes.length with
    | some e =>
      simp [hc, hw, TxTransaction.startTimer, PfcpServer.AfterFunc, PfcpServer.WriteTo] at h
    | none =>
      simp [hc, hw, TxTransaction.startTimer, PfcpServer.AfterFunc, PfcpServer.WriteTo] at h
      exact ⟨b, rfl, rfl, h.1.symm, h.2.symm⟩

/-! ## Lemmas on the tables -/

theorem lookup_mapDelete_self (m : List (String × Nat)) (k : String) :
    (mapDelete m k).lookup k = none := by
  induction m with
  | nil => rfl
  | cons e es ih =>
    obtain ⟨a, v⟩ := e
    by_cases h : a = k
    · simpa [mapDelete, List.filter_cons, h] using ih
    · have hk : (k == a) = false := by simpa using fun h' => h h'.symm
      simpa [mapDelete, List.filter_cons, h, List.lookup_cons, hk] using ih

theorem lookup_mapDelete_ne (m : List (String × Nat)) (k k' : String) (hne : k' ≠ k) :
    (mapDelete m k).lookup k' = m.lookup k' := by
  induction m with
  | nil => rfl
  | cons e es ih =>
    obtain ⟨a, v⟩ := e
    by_cases h : a = k
    · have hk : (k' == k) = false := by simpa using hne
      simpa [mapDelete, List.filter_cons, h, List.lookup_cons, hk] using ih
    · by_cases hk : k' = a
      · simp [mapDelete, List.filter_cons, h, List.lookup_cons, hk]
      · have hk' : (k' == a) = false := by simpa using hk
        simpa [mapDelete, List.filter_cons, h, List.lookup_cons, hk'] using ih

/-! ## Lemmas on timers firing -/

theorem TxTransaction.fires_add (a b : Nat) :
    ∀ (tx : TxTransaction) (s : PfcpServer),
      tx.fires (a + b) s = (tx.fires a s).bind (fun r => r.1.fires b r.2) := by
  induction a with
  | zero =>
    intro tx s
    simp [TxTransaction.fires]
  | succ n ih =>
    intro tx s
    rw [Nat.add_right_comm]
    simp only [TxTransaction.fires]
    cases tx.timerFires s with
    | none => rfl
    | some r => exact ih r.1 r.2

/-- A transaction whose timer is spent sees no further timeout. -/
theorem TxTransaction.fires_spent (k : Nat) (tx : TxTransaction) (s : PfcpServer) (t : Nat)
    (ht : tx.timer = some t) (hs : s.expire t = none) : tx.fires k s = some (tx, s) := by
  induction k with
  | zero => rfl
  | succ n ih => simp only [TxTransaction.fires, TxTransaction.timerFires, ht, hs, ih]

theorem scenarioSent_eq (codec : Codec) (req : Message) (raddr : String) (seq ref : Nat)
    (b : List Nat) (hb : codec (setReqSeq req seq) = Except.ok b) :
    scenarioSent codec req raddr seq ref =
      ({ raddr := raddr, seq := seq, id := TransactionID raddr seq, retransTimeout := second,
         maxRetrans := 3, req := some (setReqSeq req seq), msgBuf := b, timer := some 0,
         retransCount := 0 },
       { scenarioServer with
         txTrans := [(TransactionID raddr seq, ref)]
         timers := [{ armedAt := 0, d := second, trType := TransType.TX,
                      trID := TransactionID raddr seq, active := true }]
         writes := [{ time := 0, buf := b, addr := raddr, err := none }] }, none) := by
  simp [scenarioSent, TxTransaction.send, NewTxTransaction, hb, scenarioStart, scenarioServer,
    connResult, TxTransaction.startTimer, PfcpServer.AfterFunc, PfcpServer.WriteTo, mapInsert,
    mapDelete]

/-- The scenario after four timeouts, in full. -/
theorem scenarioAfter_four (codec : Codec) (req : Message) (raddr : String) (seq ref : Nat)
    (b : List Nat) (hb : codec (setReqSeq req seq) = Except.ok b) :
    scenarioAfter 4 codec req raddr seq ref = some
      ({ raddr := raddr, seq := seq, id := TransactionID raddr seq, retransTimeout := second,
         maxRetrans := 3, req := some (setReqSeq req seq), msgBuf := b, timer := some 3,
         retransCount := 3 },
       { scenarioServer with
         now := 4 * second
         timers :=
           [{ armedAt := 0, d := second, trType := TransType.TX,
              trID := TransactionID raddr seq, active := false },
            { armedAt := 1 * second, d := second, trType := TransType.TX,
              trID := TransactionID raddr seq, active := false },
            { armedAt := 2 * second, d := second, trType := TransType.TX,
              trID := TransactionID raddr seq, active := false },
            { armedAt := 3 * second, d := second, trType := TransType.TX,
              trID := TransactionID raddr seq, active := false }]
         writes :=
           [{ time := 0, buf := b, addr := raddr, err := none },
            { time := 1 * second, buf := b, addr := raddr, err := none },
            { time := 2 * second, buf := b, addr := raddr, err := none },
            { time := 3 * second, buf := b, addr := raddr, err := none }]
         escalated :=
           [{ time := 4 * second, req := some (setReqSeq req seq), addr := raddr }] }) := by
  simp [scenarioAfter, scenarioSent_eq codec req raddr seq ref b hb, TxTransaction.fires,
    TxTransaction.timerFires, PfcpServer.expire, PfcpServer.dispatchTxTimeout,
    TxTransaction.handleTimeout, scenarioServer, connResult, disarm, second,
    TxTransaction.startTimer, PfcpServer.AfterFunc, PfcpServer.WriteTo, mapInsert,
    mapDelete, PfcpServer.txtoDispacher]

/-! ## Lemmas on timers and durations -/

theorem wrapInt64_of_inRange (x : Int) (h1 : -2 ^ 63 ≤ x) (h2 : x < 2 ^ 63) :
    wrapInt64 x = x := by
  unfold wrapInt64
  rw [Int.emod_eq_of_lt (by omega) (by omega)]
  omega

theorem PfcpServer.armed_append_length (s : PfcpServer) (ts : List Timer) (x : Timer)
    (hx : x.active = true) (h : s.timers = ts ++ [x]) : s.armed ts.length = true := by
  simp [PfcpServer.armed, h, hx]

/-- Away from the two wrap-arounds the lifetime of a new inbound transaction
is the exact product: for `MaxRetrans < 255` and a product that fits an
`int64`, it is `RetransTimeout * (MaxRetrans + 1)`, which exceeds
`MaxRetrans * RetransTimeout` when the interval is positive. -/
theorem NewRxTransaction_timeout_exact (s : PfcpServer) (raddr : String) (seq : Nat)
    (hm : s.cfg.MaxRetrans < 255)
    (h1 : -2 ^ 63 ≤ s.cfg.RetransTimeout * ((s.cfg.MaxRetrans : Int) + 1))
    (h2 : s.cfg.RetransTimeout * ((s.cfg.MaxRetrans : Int) + 1) < 2 ^ 63) :
    (NewRxTransaction s raddr seq).1.timeout =
      s.cfg.RetransTimeout * ((s.cfg.MaxRetrans : Int) + 1) ∧
    (0 < s.cfg.RetransTimeout →
      (s.cfg.MaxRetrans : Int) * s.cfg.RetransTimeout <
        (NewRxTransaction s raddr seq).1.timeout) := by
  have hmod : (s.cfg.MaxRetrans + 1) % 256 = s.cfg.MaxRetrans + 1 := Nat.mod_eq_of_lt (by omega)
  have ht : (NewRxTransaction s raddr seq).1.timeout =
      s.cfg.RetransTimeout * ((s.cfg.MaxRetrans : Int) + 1) := by
    simp only [NewRxTransaction, hmod, Nat.cast_add, Nat.cast_one]
    exact wrapInt64_of_inRange _ h1 h2
  refine ⟨ht, fun hpos => ?_⟩
  rw [ht]
  nlinarith

/-! ## Lemmas on the inbound transaction -/

/-- A duplicate request on a transaction without cached bytes. -/
theorem RxTransaction.recv_empty (rx : RxTransaction) (s : PfcpServer) (req : Message)
    (hb : rx.msgBuf = []) : rx.recv s req true = some (rx, s, false, none) := by
  simp [RxTransaction.recv, hb]

/-- A duplicate request on a transaction with cached bytes: one write of
these bytes to the peer; the error of the write, if any, is returned wrapped. -/
theorem RxTransaction.recv_replay (rx : RxTransaction) (s : PfcpServer) (req r : Message)
    (hb : rx.msgBuf ≠ []) (hr : rx.rsp = some r) :
    rx.recv s req true = some
      (rx,
       { s with writes := s.writes ++ [{ time := s.now, buf := rx.msgBuf, addr := rx.raddr,
                                         err := connResult s.connResults s.writes.length }] },
       false,
       (connResult s.connResults s.writes.length).map
         (fun e => wrapf e ("rxtr[" ++ rx.id ++ "] retransmit rsp"))) := by
  have hl : rx.msgBuf.length ≠ 0 := fun h => hb (List.length_eq_zero.mp h)
  cases hw : connResult s.connResults s.writes.length <;>
    simp [RxTransaction.recv, hl, hr, PfcpServer.WriteTo, hw]

/-- A successful `send`, as equations on the transaction and the server. -/
theorem RxTransaction.rxSend_ok (codec : Codec) (rx rx1 : RxTransaction) (s s1 : PfcpServer)
    (rsp : Message) (h : rx.send codec s rsp = (rx1, s1, none)) :
    ∃ b, codec rsp = Except.ok b ∧ connResult s.connResults s.writes.length = none ∧
      rx1 = { rx with rsp := some rsp, msgBuf := b } ∧
      s1 = { s with
              writes := s.writes ++ [{ time := s.now, buf := b, addr := rx.raddr, err := none }] } := by
  unfold RxTransaction.send at h
  cases hc : codec rsp with
  | error e => simp [hc] at h
  | ok b =>
    cases hw : connResult s.connResults s.writes.length with
    | some e => simp [hc, hw, PfcpServer.WriteTo] at h
    | none =>
      simp [hc, hw, PfcpServer.WriteTo] at h
      exact ⟨b, rfl, rfl, h.1.symm, h.2.symm⟩

theorem lookup_mapDelete (m : List (String × Nat)) (k k' : String) :
    (mapDelete m k).lookup k' = if k' = k then none else m.lookup k' := by
  by_cases h : k' = k
  · rw [if_pos h, h]
    exact lookup_mapDelete_self m k
  · rw [if_neg h]
    exact lookup_mapDelete_ne m k k' h

theorem disarm_get (t : Nat) :
    ∀ (ts : List Timer), (disarm t ts).get? t = (ts.get? t).map (fun x => { x with active := false }) := by
  induction t with
  | zero =>
    intro ts
    cases ts <;> simp [disarm]
  | succ n ih =>
    intro ts
    cases ts with
    | nil => simp [disarm]
    | cons x xs => simpa [disarm] using ih xs

/-- A stopped timer is not armed. -/
theorem PfcpServer.armed_stopTimer (s : PfcpServer) (t : Nat) : (s.stopTimer t).armed t = false := by
  unfold PfcpServer.armed PfcpServer.stopTimer
  simp only [disarm_get]
  cases s.timers.get? t <;> simp

/-- Timeouts never panic on a transaction that holds its request, and they
keep the request, the identifier and the presence of a timer. -/
theorem TxTransaction.timeouts_total (k : Nat) :
    ∀ (tx : TxTransaction) (s : PfcpServer) (r : Message) (t : Nat), tx.req = some r →
      tx.timer = some t →
      ∃ tx' s' t', tx.timeouts k s = some (tx', s') ∧ tx'.req = some r ∧ tx'.timer = some t' ∧
        tx'.id = tx.id ∧ tx'.raddr = tx.raddr ∧ tx'.msgBuf = tx.msgBuf := by
  induction k with
  | zero =>
    intro tx s r t hr ht
    exact ⟨tx, s, t, rfl, hr, ht, rfl, rfl, rfl⟩
  | succ n ih =>
    intro tx s r t hr ht
    by_cases hc : tx.retransCount < tx.maxRetrans
    · obtain ⟨tx', s', t', hrun, h1, h2, h3, h4, h5⟩ := ih
        { tx with retransCount := (tx.retransCount + 1) % 256, timer := some s.timers.length }
        { s with
          writes := s.writes ++ [{ time := s.now, buf := tx.msgBuf, addr := tx.raddr,
                                   err := connResult s.connResults s.writes.length }]
          timers := s.timers ++ [{ armedAt := s.now, d := tx.retransTimeout,
                                   trType := TransType.TX, trID := tx.id, active := true }] }
        r s.timers.length hr rfl
      exact ⟨tx', s', t', by
        simp only [TxTransaction.timeouts, TxTransaction.handleTimeout_retransmit tx s r hr hc,
          hrun], h1, h2, h3, h4, h5⟩
    · obtain ⟨tx', s', t', hrun, h1, h2, h3, h4, h5⟩ := ih tx
        { s with
          txTrans := mapDelete s.txTrans tx.id
          escalated := s.escalated ++ [{ time := s.now, req := tx.req, addr := tx.raddr }] }
        r t hr ht
      exact ⟨tx', s', t', by
        simp only [TxTransaction.timeouts, TxTransaction.handleTimeout_escalate tx s hc, hrun],
        h1, h2, h3, h4, h5⟩

/-! ## Lemmas on sequences of calls on an inbound transaction -/

/-- What `RxTransaction.send` leaves alone, whatever its outcome. -/
theorem RxTransaction.send_frame (codec : Codec) (rx : RxTransaction) (s : PfcpServer)
    (rsp : Message) :
    (rx.send codec s rsp).1.timer = rx.timer ∧ (rx.send codec s rsp).1.timeout = rx.timeout ∧
    (rx.send codec s rsp).1.id = rx.id ∧ (rx.send codec s rsp).1.raddr = rx.raddr ∧
    (rx.send codec s rsp).2.1.timers = s.timers ∧
    (rx.send codec s rsp).2.1.rxTrans = s.rxTrans ∧
    (rx.send codec s rsp).2.1.txTrans = s.txTrans ∧
    (rx.send codec s rsp).2.1.now = s.now ∧
    ((rx.msgBuf ≠ [] → rx.rsp ≠ none) →
      (rx.send codec s rsp).1.msgBuf ≠ [] → (rx.send codec s rsp).1.rsp ≠ none) := by
  unfold RxTransaction.send
  cases hc : codec rsp with
  | error e => simp
  | ok b =>
    cases hw : connResult s.connResults s.writes.length <;> simp [PfcpServer.WriteTo, hw]

/-- What `RxTransaction.recv` leaves alone; it returns on every transaction
that holds a response whenever it holds bytes. -/
theorem RxTransaction.recv_frame (rx : RxTransaction) (s : PfcpServer) (req : Message)
    (found : Bool) (hwf : rx.msgBuf ≠ [] → rx.rsp ≠ none) :
    ∃ s' flag err, rx.recv s req found = some (rx, s', flag, err) ∧
      s'.timers = s.timers ∧ s'.rxTrans = s.rxTrans ∧ s'.txTrans = s.txTrans ∧
      s'.now = s.now := by
  cases found with
  | false => exact ⟨s, true, none, by simp [RxTransaction.recv], rfl, rfl, rfl, rfl⟩
  | true =>
    by_cases hb : rx.msgBuf = []
    · exact ⟨s, false, none, RxTransaction.recv_empty rx s req hb, rfl, rfl, rfl, rfl⟩
    · obtain ⟨r, hr⟩ := Option.ne_none_iff_exists'.mp (hwf hb)
      exact ⟨_, _, _, RxTransaction.recv_replay rx s req r hb hr, rfl, rfl, rfl, rfl⟩

/-- Calls of `send` and `recv`, in any number and order and with any outcome,
return and leave the timer, the timeout and the inbound table alone. -/
theorem RxTransaction.runOps_frame (codec : Codec) (ops : List RxOp) :
    ∀ (rx : RxTransaction) (s : PfcpServer), (rx.msgBuf ≠ [] → rx.rsp ≠ none) →
      ∃ rx' s', rx.runOps codec ops s = some (rx', s') ∧
        rx'.timer = rx.timer ∧ rx'.timeout = rx.timeout ∧ rx'.id = rx.id ∧
        rx'.raddr = rx.raddr ∧ s'.timers = s.timers ∧ s'.rxTrans = s.rxTrans ∧
        s'.txTrans = s.txTrans ∧ s'.now = s.now := by
  induction ops with
  | nil =>
    intro rx s _
    exact ⟨rx, s, rfl, rfl, rfl, rfl, rfl, rfl, rfl, rfl, rfl⟩
  | cons op ops ih =>
    intro rx s hwf
    cases op with
    | send rsp =>
      obtain ⟨h1, h2, h3, h4, h5, h6, h7, h8, h9⟩ := RxTransaction.send_frame codec rx s rsp
      obtain ⟨rx', s', hrun, g1, g2, g3, g4, g5, g6, g7, g8⟩ :=
        ih (rx.send codec s rsp).1 (rx.send codec s rsp).2.1 (h9 hwf)
      refine ⟨rx', s', ?_, by rw [g1, h1], by rw [g2, h2], by rw [g3, h3], by rw [g4, h4],
        by rw [g5, h5], by rw [g6, h6], by rw [g7, h7], by rw [g8, h8]⟩
      simp only [RxTransaction.runOps, RxTransaction.step, hrun]
    | recv req found =>
      obtain ⟨s1, flag, err, hrecv, h5, h6, h7, h8⟩ := RxTransaction.recv_frame rx s req found hwf
      obtain ⟨rx', s', hrun, g1, g2, g3, g4, g5, g6, g7, g8⟩ := ih rx s1 hwf
      refine ⟨rx', s', ?_, g1, g2, g3, g4, by rw [g5, h5], by rw [g6, h6], by rw [g7, h7],
        by rw [g8, h8]⟩
      simp only [RxTransaction.runOps, RxTransaction.step, hrecv, Option.map_some', hrun]

/-- An expired timer does not expire again. -/
theorem PfcpServer.expire_spent (s : PfcpServer) (t : Nat) (h : s.armed t = false) :
    s.expire t = none := by
  unfold PfcpServer.armed at h
  unfold PfcpServer.expire
  cases hx : s.timers.get? t with
  | none => rfl
  | some x =>
    rw [hx] at h
    simp at h
    simp [h]

/-- The armed timer of an inbound transaction fires: the timer is spent, the
clock stands at its deadline, and the inbound table has lost the entry of
the transaction and nothing else. -/
theorem RxTransaction.timerFires_armed (rx : RxTransaction) (s : PfcpServer) (t : Nat)
    (x : Timer) (ht : rx.timer = some t) (hx : s.timers.get? t = some x)
    (ha : x.active = true) :
    (rx.timerFires s).1 = rx ∧
    (rx.timerFires s).2.timers = disarm t s.timers ∧
    (rx.timerFires s).2.now = max s.now (x.armedAt + x.d) ∧
    (∀ i, (rx.timerFires s).2.rxTrans.lookup i =
      if i = rx.id then none else s.rxTrans.lookup i) ∧
    (rx.timerFires s).2.txTrans = s.txTrans ∧ (rx.timerFires s).2.writes = s.writes := by
  simp only [RxTransaction.timerFires, ht, PfcpServer.expire, hx, ha, if_true,
    PfcpServer.dispatchRxTimeout]
  cases hl : s.rxTrans.lookup rx.id with
  | none =>
    refine ⟨rfl, rfl, rfl, fun i => ?_, rfl, rfl⟩
    by_cases hi : i = rx.id
    · rw [if_pos hi, hi]; exact hl
    · rw [if_neg hi]
  | some v =>
    exact ⟨rfl, rfl, rfl, fun i => lookup_mapDelete s.rxTrans rx.id i, rfl, rfl⟩

/-- Nothing happens when the timer of an inbound transaction is spent. -/
theorem RxTransaction.timerFires_spent (rx : RxTransaction) (s : PfcpServer) (t : Nat)
    (ht : rx.timer = some t) (hs : s.expire t = none) : rx.timerFires s = (rx, s) := by
  simp only [RxTransaction.timerFires, ht, hs]

theorem PfcpServer.armed_of_disarm (s : PfcpServer) (t : Nat) (ts : List Timer)
    (h : s.timers = disarm t ts) : s.armed t = false := by
  unfold PfcpServer.armed
  rw [h, disarm_get]
  cases ts.get? t <;> simp

/-! ## Lemmas on spent timers and on the counter -/

theorem disarm_append_length (x : Timer) :
    ∀ (ts : List Timer), disarm ts.length (ts ++ [x]) = ts ++ [{ x with active := false }] := by
  intro ts
  induction ts with
  | nil => rfl
  | cons y ys ih => simp [disarm, ih]

/-- A timer that is not armed does not run. -/
theorem PfcpServer.runTimer_spent (s : PfcpServer) (t : Nat) (h : s.armed t = false) :
    s.runTimer t = none := by
  unfold PfcpServer.runTimer
  cases s.timers.get? t with
  | none => rfl
  | some x => simp [PfcpServer.expire_spent s t h]

/-- The call `send` leaves the counter and its bound alone, whatever its outcome. -/
theorem TxTransaction.send_counter (codec : Codec) (tx : TxTransaction) (s : PfcpServer)
    (req : Message) :
    (tx.send codec s req).1.retransCount = tx.retransCount ∧
    (tx.send codec s req).1.maxRetrans = tx.maxRetrans := by
  unfold TxTransaction.send
  cases hc : codec (setReqSeq req tx.seq) with
  | error e => simp [hc]
  | ok b =>
    cases hw : connResult s.connResults s.writes.length <;>
      simp [hc, PfcpServer.WriteTo, TxTransaction.startTimer, PfcpServer.AfterFunc, hw]

/-- One call on an outbound transaction and its counter: the counter stays
within `maxRetrans`, does not go down, goes up by one exactly in a
retransmitting `handleTimeout`, and the `uint8` sum does not wrap. -/
theorem TxTransaction.step_retransCount (codec : Codec) (op : TxOp) (tx tx1 : TxTransaction)
    (s s1 : PfcpServer) (hm : tx.maxRetrans < 256) (hinv : tx.retransCount ≤ tx.maxRetrans)
    (h : tx.step codec op s = some (tx1, s1)) :
    tx1.maxRetrans = tx.maxRetrans ∧ tx1.retransCount ≤ tx1.maxRetrans ∧
    tx.retransCount ≤ tx1.retransCount ∧ tx1.retransCount ≤ tx.retransCount + 1 ∧
    (tx1.retransCount = tx.retransCount + 1 ↔
      op = TxOp.handleTimeout ∧ tx.retransCount < tx.maxRetrans) ∧
    tx1.retransCount < 256 := by
  cases op with
  | send req =>
    simp only [TxTransaction.step, Option.some.injEq, Prod.mk.injEq] at h
    have h1 : tx1.retransCount = tx.retransCount := by
      rw [← h.1]; exact (TxTransaction.send_counter codec tx s req).1
    have h2 : tx1.maxRetrans = tx.maxRetrans := by
      rw [← h.1]; exact (TxTransaction.send_counter codec tx s req).2
    refine ⟨h2, by omega, by omega, by omega, ?_, by omega⟩
    constructor
    · intro h3; omega
    · intro h3; exact absurd h3.1 (by simp)
  | recv rsp =>
    simp only [TxTransaction.step, TxTransaction.recv] at h
    cases ht : tx.timer with
    | none => simp [ht] at h
    | some t =>
      simp [ht] at h
      have h1 : tx1.retransCount = tx.retransCount := by rw [← h.1]
      have h2 : tx1.maxRetrans = tx.maxRetrans := by rw [← h.1]
      refine ⟨h2, by omega, by omega, by omega, ?_, by omega⟩
      constructor
      · intro h3; omega
      · intro h3; exact absurd h3.1 (by simp)
  | handleTimeout =>
    simp only [TxTransaction.step] at h
    by_cases hc : tx.retransCount < tx.maxRetrans
    · cases hr : tx.req with
      | none => simp [TxTransaction.handleTimeout, hc, hr] at h
      | some r =>
        rw [TxTransaction.handleTimeout_retransmit tx s r hr hc] at h
        simp only [Option.some.injEq, Prod.mk.injEq] at h
        have hmod : (tx.retransCount + 1) % 256 = tx.retransCount + 1 :=
          Nat.mod_eq_of_lt (by omega)
        have h1 : tx1.retransCount = tx.retransCount + 1 := by rw [← h.1]; exact hmod
        have h2 : tx1.maxRetrans = tx.maxRetrans := by rw [← h.1]
        exact ⟨h2, by omega, by omega, by omega, ⟨fun _ => ⟨rfl, hc⟩, fun _ => h1⟩, by omega⟩
    · rw [TxTransaction.handleTimeout_escalate tx s hc] at h
      simp only [Option.some.injEq, Prod.mk.injEq] at h
      have h1 : tx1.retransCount = tx.retransCount := by rw [← h.1]
      have h2 : tx1.maxRetrans = tx.maxRetrans := by rw [← h.1]
      refine ⟨h2, by omega, by omega, by omega, ?_, by omega⟩
      constructor
      · intro h3; omega
      · intro h3; exact absurd h3.2 hc

/-- The counter stays within `maxRetrans` along every sequence of calls. -/
theorem TxTransaction.runOps_retransCount (codec : Codec) (ops : List TxOp) :
    ∀ (tx tx1 : TxTransaction) (s s1 : PfcpServer), tx.maxRetrans < 256 →
      tx.retransCount ≤ tx.maxRetrans → tx.runOps codec ops s = some (tx1, s1) →
      tx1.maxRetrans = tx.maxRetrans ∧ tx1.retransCount ≤ tx1.maxRetrans ∧
      tx.retransCount ≤ tx1.retransCount := by
  induction ops with
  | nil =>
    intro tx tx1 s s1 _ hinv h
    simp only [TxTransaction.runOps, Option.some.injEq, Prod.mk.injEq] at h
    rw [← h.1]
    exact ⟨rfl, hinv, le_refl _⟩
  | cons op ops ih =>
    intro tx tx1 s s1 hm hinv h
    simp only [TxTransaction.runOps] at h
    cases hstep : tx.step codec op s with
    | none => simp [hstep] at h
    | some r =>
      rw [hstep] at h
      obtain ⟨g1, g2, g3, _, _, _⟩ :=
        TxTransaction.step_retransCount codec op tx r.1 s r.2 hm hinv hstep
      obtain ⟨f1, f2, f3⟩ := ih r.1 tx1 r.2 s1 (by rw [g1]; exact hm) g2 h
      exact ⟨by rw [f1, g1], f2, le_trans g3 f3⟩

/-! ## C1: the identifier is injective -/

/-- C1: `TransactionID` is a function of the pair (address rendering,
sequence number), and it is injective on pairs whose sequence number is a
`uint32`: equal identifiers come from equal addresses and equal sequence
numbers, whatever the address text contains (also `-` or `-0x`). -/
theorem TransactionID_injective (a1 a2 : String) (s1 s2 : Nat)
    (h1 : s1 < 2 ^ 32) (h2 : s2 < 2 ^ 32)
    (h : TransactionID a1 s1 = TransactionID a2 s2) : a1 = a2 ∧ s1 = s2 := by
  have hd : (TransactionID a1 s1).data = (TransactionID a2 s2).data := by rw [h]
  rw [TransactionID_data, TransactionID_data] at hd
  obtain ⟨ha, hs⟩ := append_sep_inj _ _ _ _ (fmtSharpHex_no_dash s1) (fmtSharpHex_no_dash s2) hd
  refine ⟨String.ext ha, ?_⟩
  unfold fmtSharpHex at hs
  simp only [List.cons.injEq, true_and] at hs
  have hv : hexVal (fmtHexLoop 7 s1 []) = hexVal (fmtHexLoop 7 s2 []) := by rw [hs]
  rwa [hexVal_fmtHexLoop s1 h1, hexVal_fmtHexLoop s2 h2] at hv

/-- C1, at an address whose text contains the separator: the identifier of
("10.0.0.1-0x1", 0x10) is "10.0.0.1-0x1-0x10", and the pair is recovered
from it. -/
theorem TransactionID_injective_witness :
    TransactionID "10.0.0.1-0x1" 16 = "10.0.0.1-0x1-0x10" ∧
      ("10.0.0.1-0x1" = "10.0.0.1-0x1" ∧ 16 = 16) :=
  ⟨by decide, TransactionID_injective "10.0.0.1-0x1" "10.0.0.1-0x1" 16 16
    (by decide) (by decide) rfl⟩

/-! ## C2: retransmissions, then one escalation -/

/-- C2: a transaction made by `NewTxTransaction` with `maxRetrans = n` (any
`uint8`, also 0) whose `send` succeeded and that gets no response: `n`
timeout events give exactly `n` writes, each of the bytes stored by `send`
(the ones `send` itself wrote) to the peer, with no escalation and the table
untouched; the next timeout calls the escalation callback exactly once, with
the stored request and the peer address, removes the identifier from the
outbound table, writes nothing and arms no timer; and no later timeout
handled by the object writes anything or arms a timer. -/
theorem tx_retransmits_then_escalates (codec : Codec) (s0 s s1 : PfcpServer) (raddr : String)
    (seq : Nat) (req : Message) (tx1 : TxTransaction)
    (hmax : s0.cfg.MaxRetrans < 256)
    (hsend : (NewTxTransaction s0 raddr seq).send codec s req = (tx1, s1, none)) :
    s1.writes = s.writes ++ [{ time := s.now, buf := tx1.msgBuf, addr := raddr, err := none }] ∧
    tx1.req = some (setReqSeq req seq) ∧
    ∃ txn sn ws,
      tx1.timeouts s0.cfg.MaxRetrans s1 = some (txn, sn) ∧
      sn.writes = s1.writes ++ ws ∧ ws.length = s0.cfg.MaxRetrans ∧
      (∀ w ∈ ws, w.buf = tx1.msgBuf ∧ w.addr = raddr) ∧
      sn.escalated = s1.escalated ∧ sn.txTrans = s1.txTrans ∧
      ∃ txe se,
        txn.handleTimeout sn = some (txe, se) ∧
        se.escalated = sn.escalated ++
          [{ time := sn.now, req := some (setReqSeq req seq), addr := raddr }] ∧
        se.txTrans = mapDelete sn.txTrans (TransactionID raddr seq) ∧
        se.txTrans.lookup (TransactionID raddr seq) = none ∧
        se.writes = sn.writes ∧ se.timers = sn.timers ∧
        ∀ j, ∃ txj sj, txe.timeouts j se = some (txj, sj) ∧
          sj.writes = se.writes ∧ sj.timers = se.timers := by
  obtain ⟨b, _, _, htx, hs⟩ := TxTransaction.txSend_ok codec _ tx1 s s1 req hsend
  simp only [NewTxTransaction] at htx hs
  subst htx hs
  refine ⟨rfl, rfl, ?_⟩
  obtain ⟨txn, sn, ws, hrun, h1, h2, h3, h4, _, _, h7, h8, _, h10, h11, h12, _, h14, h15, _, _,
    _, _⟩ := TxTransaction.timeouts_retransmit s0.cfg.MaxRetrans
      { raddr := raddr, seq := seq, id := TransactionID raddr seq,
        retransTimeout := s0.cfg.RetransTimeout, maxRetrans := s0.cfg.MaxRetrans,
        req := some (setReqSeq req seq), msgBuf := b, timer := some s.timers.length,
        retransCount := 0 }
      { s with
        writes := s.writes ++ [{ time := s.now, buf := b, addr := raddr, err := none }]
        timers := s.timers ++ [{ armedAt := s.now, d := s0.cfg.RetransTimeout,
                                 trType := TransType.TX, trID := TransactionID raddr seq,
                                 active := true }] }
      (setReqSeq req seq) rfl (by simp) hmax
  have hc : ¬ txn.retransCount < txn.maxRetrans := by
    rw [h7, h8]; simp
  refine ⟨txn, sn, ws, hrun, h10, h11, fun w hw => ⟨(h12 w hw).1, (h12 w hw).2.1⟩, h14, h15,
    txn, _, TxTransaction.handleTimeout_escalate txn sn hc, ?_, ?_, ?_, rfl, rfl, ?_⟩
  · simp only [h1, h3]
  · simp only [h4]
  · simp only [h4]
    exact lookup_mapDelete_self _ _
  · intro j
    obtain ⟨sj, hj, hw, ht⟩ := TxTransaction.timeouts_exhausted j txn
      { sn with
        txTrans := mapDelete sn.txTrans txn.id
        escalated := sn.escalated ++ [{ time := sn.now, req := txn.req, addr := txn.raddr }] } hc
    exact ⟨txn, sj, hj, hw, ht⟩

/-- C2 in the scenario (3 retransmissions): `send` succeeds, and after the
three timeouts the connection has seen four writes. -/
theorem tx_retransmits_then_escalates_witness :
    scenarioServer.cfg.MaxRetrans < 256 ∧
    ((NewTxTransaction scenarioServer scenarioPeer 16).send scenarioCodec scenarioServer
      scenarioReq).2.2 = none ∧
    ∃ txn sn,
      ((NewTxTransaction scenarioServer scenarioPeer 16).send scenarioCodec scenarioServer
        scenarioReq).1.timeouts 3
        ((NewTxTransaction scenarioServer scenarioPeer 16).send scenarioCodec scenarioServer
          scenarioReq).2.1 = some (txn, sn) ∧ sn.writes.length = 4 := by
  refine ⟨by decide, rfl, ?_⟩
  obtain ⟨h0, _, txn, sn, ws, hrun, hw, hl, _⟩ :=
    tx_retransmits_then_escalates scenarioCodec scenarioServer scenarioServer
      ((NewTxTransaction scenarioServer scenarioPeer 16).send scenarioCodec scenarioServer
        scenarioReq).2.1 scenarioPeer 16 scenarioReq
      ((NewTxTransaction scenarioServer scenarioPeer 16).send scenarioCodec scenarioServer
        scenarioReq).1 (by decide) rfl
  refine ⟨txn, sn, hrun, ?_⟩
  rw [hw, h0, List.length_append, List.length_append, hl]
  rfl

/-! ## C3: the timed scenario -/

/-- C3, as the code has it: with an interval of 1 s and `maxRetrans = 3`, a
request sent at t = 0 s that gets no response is written to the peer at
t = 0 s, 1 s, 2 s and 3 s, with no escalation up to and including t = 3 s;
the escalation callback is called once, at t = 4 s, with the stored request
and the peer; then the identifier is out of the outbound table, no timer is
armed, nothing is written at t = 4 s, and nothing happens afterwards. -/
theorem tx_scenario_timeline (codec : Codec) (req : Message) (raddr : String) (seq ref : Nat)
    (b : List Nat) (hb : codec (setReqSeq req seq) = Except.ok b) :
    (scenarioSent codec req raddr seq ref).2.2 = none ∧
    (scenarioAfter 3 codec req raddr seq ref).map
        (fun r => (r.2.now, r.2.writes, r.2.escalated)) =
      some (3 * second,
        [{ time := 0, buf := b, addr := raddr, err := none },
         { time := 1 * second, buf := b, addr := raddr, err := none },
         { time := 2 * second, buf := b, addr := raddr, err := none },
         { time := 3 * second, buf := b, addr := raddr, err := none }], []) ∧
    (scenarioAfter 4 codec req raddr seq ref).map
        (fun r => (r.2.now, r.2.writes, r.2.escalated, r.2.txTrans,
          r.2.timers.map (fun t => t.active))) =
      some (4 * second,
        [{ time := 0, buf := b, addr := raddr, err := none },
         { time := 1 * second, buf := b, addr := raddr, err := none },
         { time := 2 * second, buf := b, addr := raddr, err := none },
         { time := 3 * second, buf := b, addr := raddr, err := none }],
        [{ time := 4 * second, req := some (setReqSeq req seq), addr := raddr }], [],
        [false, false, false, false]) ∧
    ∀ k, scenarioAfter (4 + k) codec req raddr seq ref =
      scenarioAfter 4 codec req raddr seq ref := by
  refine ⟨by rw [scenarioSent_eq codec req raddr seq ref b hb], ?_, ?_, ?_⟩
  · simp [scenarioAfter, scenarioSent_eq codec req raddr seq ref b hb, TxTransaction.fires,
      TxTransaction.timerFires, PfcpServer.expire, PfcpServer.dispatchTxTimeout,
      TxTransaction.handleTimeout, scenarioServer, connResult, disarm, second,
      TxTransaction.startTimer, PfcpServer.AfterFunc, PfcpServer.WriteTo, mapInsert,
      mapDelete]
  · rw [scenarioAfter_four codec req raddr seq ref b hb]
    simp [scenarioServer]
  · intro k
    have h4 := scenarioAfter_four codec req raddr seq ref b hb
    unfold scenarioAfter at h4 ⊢
    rw [TxTransaction.fires_add, h4]
    exact TxTransaction.fires_spent k _ _ 3 rfl (by simp [PfcpServer.expire])

/-- C3 for the heartbeat request of the scenario, sequence number 0x10. -/
theorem tx_scenario_timeline_witness :
    scenarioCodec (setReqSeq scenarioReq 16) =
      Except.ok [32, 1, 0, 11, 0, 0, 0, 16, 96, 0, 4, 0, 0, 0, 0] ∧
    (scenarioAfter 4 scenarioCodec scenarioReq scenarioPeer 16 0).map
        (fun r => (r.2.now, r.2.escalated)) =
      some (4 * second,
        [{ time := 4 * second, req := some (setReqSeq scenarioReq 16), addr := scenarioPeer }]) := by
  refine ⟨rfl, ?_⟩
  have h := (tx_scenario_timeline scenarioCodec scenarioReq scenarioPeer 16 0
    [32, 1, 0, 11, 0, 0, 0, 16, 96, 0, 4, 0, 0, 0, 0] rfl).2.2.1
  cases hr : scenarioAfter 4 scenarioCodec scenarioReq scenarioPeer 16 0 with
  | none => rw [hr] at h; simp at h
  | some r =>
    rw [hr] at h
    simp only [Option.map_some', Option.some.injEq, Prod.mk.injEq] at h ⊢
    exact ⟨h.1, h.2.2.1⟩

/-- C3 as stated fails: in the scenario no escalation has happened when the
events of t = 3 s are done (the third retransmission is the write of that
instant), and the one escalation of the run carries the time 4 s. -/
theorem tx_scenario_no_escalation_at_3s :
    (scenarioAfter 3 scenarioCodec scenarioReq scenarioPeer 16 0).map
        (fun r => (r.2.now, r.2.escalated)) = some (3 * second, []) ∧
    (scenarioAfter 5 scenarioCodec scenarioReq scenarioPeer 16 0).map
        (fun r => r.2.escalated.map (fun e => e.time)) = some [4 * second] := by
  decide

/-! ## C4: the lifetime of an inbound transaction -/

/-- C4 at `RetransTimeout = 1 s`, `MaxRetrans = 255`: the sum `MaxRetrans+1`
is taken in `uint8` and is 0, so the lifetime of the new inbound transaction
is 0 and its timer is armed for 0 ns, where the claim has 256 s; the lifetime
is not longer than `255 * 1 s`. -/
theorem NewRxTransaction_lifetime_at_255 :
    (NewRxTransaction maxedServer scenarioPeer 32).1.timeout = 0 ∧
    (NewRxTransaction maxedServer scenarioPeer 32).2.timers =
      [{ armedAt := 0, d := 0, trType := TransType.RX, trID := "10.0.0.1:8805-0x20",
         active := true }] ∧
    (NewRxTransaction maxedServer scenarioPeer 32).1.timeout ≠ second * (255 + 1) ∧
    ¬ (255 * second < (NewRxTransaction maxedServer scenarioPeer 32).1.timeout) := by
  decide

/-! ## C5: a failed `send` of an outbound transaction and its timer -/

/-- C5, as the code has it: when `TxTransaction.send` returns an error, either
the serialisation failed, and then the transaction and the server (its
timers included) are as before the call; or the write failed, and then the
timer armed before the write, for `retransTimeout` and with the notification
`(TX, id)`, is the timer of the transaction and is still armed. -/
theorem tx_send_error_timer (codec : Codec) (tx tx1 : TxTransaction) (s s1 : PfcpServer)
    (req : Message) (e : String) (h : tx.send codec s req = (tx1, s1, some e)) :
    (∃ ce, codec (setReqSeq req tx.seq) = Except.error ce ∧ tx1 = tx ∧ s1 = s) ∨
    (∃ b we, codec (setReqSeq req tx.seq) = Except.ok b ∧
      connResult s.connResults s.writes.length = some we ∧
      tx1.timer = some s.timers.length ∧
      s1.timers = s.timers ++ [{ armedAt := s.now, d := tx.retransTimeout,
                                 trType := TransType.TX, trID := tx.id, active := true }] ∧
      s1.armed s.timers.length = true) := by
  unfold TxTransaction.send at h
  cases hc : codec (setReqSeq req tx.seq) with
  | error ce =>
    simp [hc] at h
    exact Or.inl ⟨ce, rfl, h.1.symm, h.2.1.symm⟩
  | ok b =>
    cases hw : connResult s.connResults s.writes.length with
    | none =>
      simp [hc, hw, TxTransaction.startTimer, PfcpServer.AfterFunc, PfcpServer.WriteTo] at h
    | some we =>
      simp [hc, hw, TxTransaction.startTimer, PfcpServer.AfterFunc, PfcpServer.WriteTo] at h
      obtain ⟨h1, h2, _⟩ := h
      subst h1 h2
      exact Or.inr ⟨b, we, rfl, rfl, rfl, rfl, PfcpServer.armed_append_length _ _ _ rfl rfl⟩

/-- C5 on a connection whose first write fails: `send` returns the wrapped
error, and the second case of the theorem is the one that applies. -/
theorem tx_send_error_timer_witness :
    ((NewTxTransaction unreachableServer scenarioPeer 16).send scenarioCodec unreachableServer
        scenarioReq).2.2 =
      some "txtr[10.0.0.1:8805-0x10] send: sendto: network is unreachable" ∧
    ((∃ ce, scenarioCodec (setReqSeq scenarioReq 16) = Except.error ce) ∨
      ∃ we, connResult unreachableServer.connResults unreachableServer.writes.length =
        some we) := by
  have hs : (NewTxTransaction unreachableServer scenarioPeer 16).send scenarioCodec
      unreachableServer scenarioReq =
        (((NewTxTransaction unreachableServer scenarioPeer 16).send scenarioCodec
          unreachableServer scenarioReq).1,
         ((NewTxTransaction unreachableServer scenarioPeer 16).send scenarioCodec
          unreachableServer scenarioReq).2.1,
         some "txtr[10.0.0.1:8805-0x10] send: sendto: network is unreachable") := by
    decide
  refine ⟨by decide, ?_⟩
  rcases tx_send_error_timer scenarioCodec _ _ unreachableServer _ scenarioReq _ hs with
    ⟨ce, h, _⟩ | ⟨b, we, _, h, _⟩
  · exact Or.inl ⟨ce, h⟩
  · exact Or.inr ⟨we, h⟩

/-- C5 as stated fails: on a connection whose first write fails, `send`
returns an error and the transaction is left with timer 0, which is armed;
when that timer fires, one second later, the registered transaction handles
the timeout and writes the request again. -/
theorem tx_send_transmit_error_leaves_timer :
    ((NewTxTransaction unreachableServer scenarioPeer 16).send scenarioCodec unreachableServer
        scenarioReq).2.2 =
      some "txtr[10.0.0.1:8805-0x10] send: sendto: network is unreachable" ∧
    ((NewTxTransaction unreachableServer scenarioPeer 16).send scenarioCodec unreachableServer
        scenarioReq).1.timer = some 0 ∧
    ((NewTxTransaction unreachableServer scenarioPeer 16).send scenarioCodec unreachableServer
        scenarioReq).2.1.armed 0 = true ∧
    (((NewTxTransaction unreachableServer scenarioPeer 16).send scenarioCodec
        { unreachableServer with txTrans := mapInsert [] "10.0.0.1:8805-0x10" 0 }
        scenarioReq).1.fires 1
      ((NewTxTransaction unreachableServer scenarioPeer 16).send scenarioCodec
        { unreachableServer with txTrans := mapInsert [] "10.0.0.1:8805-0x10" 0 }
        scenarioReq).2.1).map (fun r => r.2.writes.map (fun w => (w.time, w.err))) =
      some [(0, some "sendto: network is unreachable"), (second, none)] := by
  decide

/-! ## C6: a failed `send` of an inbound transaction and its cache -/

/-- C6, as the code has it: when `RxTransaction.send` returns an error, either
the serialisation failed, and then the transaction (`rsp` and `msgBuf`
included) and the server are as before the call, so that a duplicate request
on a transaction that had no bytes cached writes nothing; or the write
failed, and then the response and its bytes are cached all the same, and a
duplicate request replays exactly those bytes to the peer. -/
theorem rx_send_error_cache (codec : Codec) (rx rx1 : RxTransaction) (s s1 : PfcpServer)
    (rsp : Message) (e : String) (h : rx.send codec s rsp = (rx1, s1, some e)) :
    (∃ ce, codec rsp = Except.error ce ∧ rx1 = rx ∧ s1 = s ∧
      (rx.msgBuf = [] → ∀ s2 req, rx1.recv s2 req true = some (rx1, s2, false, none))) ∨
    (∃ b we, codec rsp = Except.ok b ∧
      connResult s.connResults s.writes.length = some we ∧
      rx1 = { rx with rsp := some rsp, msgBuf := b } ∧
      s1 = { s with writes := s.writes ++
              [{ time := s.now, buf := b, addr := rx.raddr, err := some we }] } ∧
      (b ≠ [] → ∀ s2 req, rx1.recv s2 req true = some
        (rx1,
         { s2 with writes := s2.writes ++
            [{ time := s2.now, buf := b, addr := rx.raddr,
               err := connResult s2.connResults s2.writes.length }] },
         false,
         (connResult s2.connResults s2.writes.length).map
           (fun e => wrapf e ("rxtr[" ++ rx.id ++ "] retransmit rsp"))))) := by
  unfold RxTransaction.send at h
  cases hc : codec rsp with
  | error ce =>
    simp [hc] at h
    obtain ⟨h1, h2, _⟩ := h
    subst h1 h2
    exact Or.inl ⟨ce, rfl, rfl, rfl, fun hb s2 req => RxTransaction.recv_empty _ s2 req hb⟩
  | ok b =>
    cases hw : connResult s.connResults s.writes.length with
    | none => simp [hc, hw, PfcpServer.WriteTo] at h
    | some we =>
      simp [hc, hw, PfcpServer.WriteTo] at h
      obtain ⟨h1, h2, _⟩ := h
      subst h1 h2
      exact Or.inr ⟨b, we, rfl, rfl, rfl, rfl, fun hb s2 req =>
        RxTransaction.recv_replay _ s2 req rsp hb rfl⟩

/-- C6 on a connection whose first write fails: `send` of a new inbound
transaction returns the wrapped error, and the bytes of the response are in
`msgBuf` afterwards. -/
theorem rx_send_error_cache_witness :
    ((NewRxTransaction unreachableServer scenarioPeer 32).1.send scenarioCodec
        (NewRxTransaction unreachableServer scenarioPeer 32).2 scenarioRsp).2.2 =
      some "rxtr[10.0.0.1:8805-0x20] send: sendto: network is unreachable" ∧
    ((NewRxTransaction unreachableServer scenarioPeer 32).1.send scenarioCodec
        (NewRxTransaction unreachableServer scenarioPeer 32).2 scenarioRsp).1.msgBuf =
      [32, 2, 0, 11, 0, 0, 0, 32, 96, 0, 4, 0, 0, 0, 0] := by
  have hs : (NewRxTransaction unreachableServer scenarioPeer 32).1.send scenarioCodec
      (NewRxTransaction unreachableServer scenarioPeer 32).2 scenarioRsp =
        (((NewRxTransaction unreachableServer scenarioPeer 32).1.send scenarioCodec
          (NewRxTransaction unreachableServer scenarioPeer 32).2 scenarioRsp).1,
         ((NewRxTransaction unreachableServer scenarioPeer 32).1.send scenarioCodec
          (NewRxTransaction unreachableServer scenarioPeer 32).2 scenarioRsp).2.1,
         some "rxtr[10.0.0.1:8805-0x20] send: sendto: network is unreachable") := by
    decide
  refine ⟨by decide, ?_⟩
  rcases rx_send_error_cache scenarioCodec _ _ _ _ scenarioRsp _ hs with
    ⟨ce, h, _⟩ | ⟨b, we, hb, _, h, _⟩
  · exact absurd h (by simp [scenarioCodec])
  · rw [h]
    have hb' : Except.ok [32, 2, 0, 11, 0, 0, 0, 32, 96, 0, 4, 0, 0, 0, 0] = Except.ok b := hb
    injection hb' with hb'
    exact hb'.symm

/-- C6 as stated fails: on a connection whose first write fails, `send` of a
new inbound transaction returns an error, yet the response and its bytes are
cached afterwards, and a following duplicate request writes those bytes to
the peer. -/
theorem rx_send_transmit_error_caches :
    ((NewRxTransaction unreachableServer scenarioPeer 32).1.send scenarioCodec
        (NewRxTransaction unreachableServer scenarioPeer 32).2 scenarioRsp).2.2 =
      some "rxtr[10.0.0.1:8805-0x20] send: sendto: network is unreachable" ∧
    (NewRxTransaction unreachableServer scenarioPeer 32).1.msgBuf = [] ∧
    ((NewRxTransaction unreachableServer scenarioPeer 32).1.send scenarioCodec
        (NewRxTransaction unreachableServer scenarioPeer 32).2 scenarioRsp).1.msgBuf =
      [32, 2, 0, 11, 0, 0, 0, 32, 96, 0, 4, 0, 0, 0, 0] ∧
    ((NewRxTransaction unreachableServer scenarioPeer 32).1.send scenarioCodec
        (NewRxTransaction unreachableServer scenarioPeer 32).2 scenarioRsp).1.rsp =
      some scenarioRsp ∧
    (((NewRxTransaction unreachableServer scenarioPeer 32).1.send scenarioCodec
        (NewRxTransaction unreachableServer scenarioPeer 32).2 scenarioRsp).1.recv
      ((NewRxTransaction unreachableServer scenarioPeer 32).1.send scenarioCodec
        (NewRxTransaction unreachableServer scenarioPeer 32).2 scenarioRsp).2.1
      scenarioReq true).map (fun r => (r.2.1.writes.map (fun w => (w.buf, w.addr, w.err)), r.2.2)) =
      some ([([32, 2, 0, 11, 0, 0, 0, 32, 96, 0, 4, 0, 0, 0, 0], scenarioPeer,
              some "sendto: network is unreachable"),
             ([32, 2, 0, 11, 0, 0, 0, 32, 96, 0, 4, 0, 0, 0, 0], scenarioPeer, none)],
            false, none) := by
  decide

/-! ## C7: duplicate requests -/

/-- C7: a duplicate request (`recv` with `rxTrFound = true`) on a transaction
without cached bytes writes nothing and changes nothing; on a transaction
whose response was cached by a successful `send` (and serialised to at least
one byte, which is what the code takes for cached) it makes exactly one
write, of exactly the cached serialisation, to the peer address of the
transaction, and leaves the transaction as it is; the flag is `false` in
both cases. -/
theorem rx_recv_duplicate (codec : Codec) (rx0 rx : RxTransaction) (s0 s1 s : PfcpServer)
    (rsp req : Message) :
    (rx.msgBuf = [] → rx.recv s req true = some (rx, s, false, none)) ∧
    (rx0.send codec s0 rsp = (rx, s1, none) → rx.msgBuf ≠ [] →
      codec rsp = Except.ok rx.msgBuf ∧ rx.rsp = some rsp ∧ rx.raddr = rx0.raddr ∧
      rx.recv s req true = some
        (rx,
         { s with writes := s.writes ++
            [{ time := s.now, buf := rx.msgBuf, addr := rx0.raddr,
               err := connResult s.connResults s.writes.length }] },
         false,
         (connResult s.connResults s.writes.length).map
           (fun e => wrapf e ("rxtr[" ++ rx.id ++ "] retransmit rsp")))) := by
  refine ⟨fun hb => RxTransaction.recv_empty rx s req hb, fun hs hb => ?_⟩
  obtain ⟨b, hc, _, hrx, _⟩ := RxTransaction.rxSend_ok codec rx0 rx s0 s1 rsp hs
  have h1 : rx.msgBuf = b := by rw [hrx]
  have h2 : rx.rsp = some rsp := by rw [hrx]
  have h3 : rx.raddr = rx0.raddr := by rw [hrx]
  refine ⟨by rw [h1]; exact hc, h2, h3, ?_⟩
  rw [← h3]
  exact RxTransaction.recv_replay rx s req rsp hb h2

/-- C7 for the heartbeat response of the scenario: after the successful
`send`, a duplicate request makes the second write of the same bytes. -/
theorem rx_recv_duplicate_witness :
    ((NewRxTransaction scenarioServer scenarioPeer 32).1.send scenarioCodec
        (NewRxTransaction scenarioServer scenarioPeer 32).2 scenarioRsp).2.2 = none ∧
    (((NewRxTransaction scenarioServer scenarioPeer 32).1.send scenarioCodec
        (NewRxTransaction scenarioServer scenarioPeer 32).2 scenarioRsp).1.recv
      ((NewRxTransaction scenarioServer scenarioPeer 32).1.send scenarioCodec
        (NewRxTransaction scenarioServer scenarioPeer 32).2 scenarioRsp).2.1
      scenarioReq true).map (fun r => (r.2.1.writes.map (fun w => (w.buf, w.addr)), r.2.2.1)) =
      some ([([32, 2, 0, 11, 0, 0, 0, 32, 96, 0, 4, 0, 0, 0, 0], scenarioPeer),
             ([32, 2, 0, 11, 0, 0, 0, 32, 96, 0, 4, 0, 0, 0, 0], scenarioPeer)], false) := by
  refine ⟨rfl, ?_⟩
  have h := (rx_recv_duplicate scenarioCodec
    (NewRxTransaction scenarioServer scenarioPeer 32).1
    ((NewRxTransaction scenarioServer scenarioPeer 32).1.send scenarioCodec
      (NewRxTransaction scenarioServer scenarioPeer 32).2 scenarioRsp).1
    (NewRxTransaction scenarioServer scenarioPeer 32).2
    ((NewRxTransaction scenarioServer scenarioPeer 32).1.send scenarioCodec
      (NewRxTransaction scenarioServer scenarioPeer 32).2 scenarioRsp).2.1
    ((NewRxTransaction scenarioServer scenarioPeer 32).1.send scenarioCodec
      (NewRxTransaction scenarioServer scenarioPeer 32).2 scenarioRsp).2.1
    scenarioRsp scenarioReq).2 rfl (by decide)
  rw [h.2.2.2]
  decide

/-! ## C8: the flag returned by `RxTransaction.recv` -/

/-- C8: `RxTransaction.recv` with `rxTrFound = false` returns `true` and no
error, and writes nothing; with `rxTrFound = true` it returns `false`,
whatever the outcome of the write, on every transaction that holds a
response whenever it holds bytes (`send` stores the two together); whenever
it returns, the flag is `true` exactly if `rxTrFound` is `false`; and when
the write of the cached bytes fails, it returns `false` with the wrapped
error. -/
theorem rx_recv_flag (rx : RxTransaction) (s : PfcpServer) (req : Message) (found : Bool) :
    (found = false → rx.recv s req found = some (rx, s, true, none)) ∧
    (found = true → (rx.msgBuf ≠ [] → rx.rsp ≠ none) →
      ∃ s' err, rx.recv s req found = some (rx, s', false, err)) ∧
    (∀ r, rx.recv s req found = some r → (r.2.2.1 = true ↔ found = false)) ∧
    (found = true → rx.msgBuf ≠ [] → rx.rsp ≠ none →
      ∀ e, connResult s.connResults s.writes.length = some e →
        rx.recv s req found = some
          (rx,
           { s with writes := s.writes ++
              [{ time := s.now, buf := rx.msgBuf, addr := rx.raddr, err := some e }] },
           false, some (wrapf e ("rxtr[" ++ rx.id ++ "] retransmit rsp")))) := by
  have hreplay : rx.msgBuf ≠ [] → rx.rsp ≠ none →
      rx.recv s req true = some
        (rx,
         { s with writes := s.writes ++
            [{ time := s.now, buf := rx.msgBuf, addr := rx.raddr,
               err := connResult s.connResults s.writes.length }] },
         false,
         (connResult s.connResults s.writes.length).map
           (fun e => wrapf e ("rxtr[" ++ rx.id ++ "] retransmit rsp"))) := by
    intro hb hr
    obtain ⟨r, hr'⟩ := Option.ne_none_iff_exists'.mp hr
    exact RxTransaction.recv_replay rx s req r hb hr'
  refine ⟨?_, ?_, ?_, ?_⟩
  · intro hf
    subst hf
    simp [RxTransaction.recv]
  · intro hf hwf
    subst hf
    by_cases hb : rx.msgBuf = []
    · exact ⟨s, none, RxTransaction.recv_empty rx s req hb⟩
    · exact ⟨_, _, hreplay hb (hwf hb)⟩
  · intro r hr
    cases found with
    | false =>
      simp [RxTransaction.recv] at hr
      subst hr
      simp
    | true =>
      by_cases hb : rx.msgBuf = []
      · rw [RxTransaction.recv_empty rx s req hb] at hr
        simp at hr
        subst hr
        simp
      · cases hrsp : rx.rsp with
        | none =>
          have hl : rx.msgBuf.length ≠ 0 := fun h => hb (List.length_eq_zero.mp h)
          simp [RxTransaction.recv, hl, hrsp] at hr
        | some m =>
          rw [RxTransaction.recv_replay rx s req m hb hrsp] at hr
          simp at hr
          subst hr
          simp
  · intro hf hb hr e he
    subst hf
    rw [hreplay hb hr, he]
    rfl

/-- C8 on the transaction of the scenario after its `send`, with a
connection whose second write fails: the duplicate gets `false` and the
wrapped error. -/
theorem rx_recv_flag_witness :
    ((NewRxTransaction scenarioServer scenarioPeer 32).1.send scenarioCodec
        (NewRxTransaction scenarioServer scenarioPeer 32).2 scenarioRsp).1.recv
      { scenarioServer with
        connResults := [none, some "sendto: network is unreachable"]
        writes := [{ time := 0, buf := [], addr := scenarioPeer, err := none }] }
      scenarioReq true =
    some
      (((NewRxTransaction scenarioServer scenarioPeer 32).1.send scenarioCodec
        (NewRxTransaction scenarioServer scenarioPeer 32).2 scenarioRsp).1,
       { scenarioServer with
        connResults := [none, some "sendto: network is unreachable"]
        writes := [{ time := 0, buf := [], addr := scenarioPeer, err := none },
                   { time := 0, buf := [32, 2, 0, 11, 0, 0, 0, 32, 96, 0, 4, 0, 0, 0, 0],
                     addr := scenarioPeer, err := some "sendto: network is unreachable" }] },
       false,
       some "rxtr[10.0.0.1:8805-0x20] retransmit rsp: sendto: network is unreachable") :=
  (rx_recv_flag
    ((NewRxTransaction scenarioServer scenarioPeer 32).1.send scenarioCodec
      (NewRxTransaction scenarioServer scenarioPeer 32).2 scenarioRsp).1
    { scenarioServer with
      connResults := [none, some "sendto: network is unreachable"]
      writes := [{ time := 0, buf := [], addr := scenarioPeer, err := none }] }
    scenarioReq true).2.2.2 rfl (by decide) (by decide)
    "sendto: network is unreachable" (by decide)

/-! ## C9: the response completes the outbound transaction -/

/-- C9: on a transaction whose `send` succeeded, after any number `k` of
timeouts, `recv` (on any state `s2` of the server) returns exactly the request
stored by `send`, the given request with the sequence number of the
transaction; it leaves the transaction without a timer, and the timer it held
is not armed; the outbound table has no entry for the identifier and its
other entries are as before; the inbound table and the writes are as before. -/
theorem tx_recv_completes (codec : Codec) (tx tx1 : TxTransaction) (s s1 s2 : PfcpServer)
    (req rsp : Message) (k : Nat) (hsend : tx.send codec s req = (tx1, s1, none)) :
    ∃ txk sk t tx' s3,
      tx1.timeouts k s1 = some (txk, sk) ∧ txk.timer = some t ∧
      txk.recv s2 rsp = some (tx', s3, some (setReqSeq req tx.seq)) ∧
      tx1.req = some (setReqSeq req tx.seq) ∧
      tx'.timer = none ∧ s3.armed t = false ∧
      (∀ i, s3.txTrans.lookup i = if i = tx.id then none else s2.txTrans.lookup i) ∧
      s3.rxTrans = s2.rxTrans ∧ s3.writes = s2.writes ∧ s3.escalated = s2.escalated := by
  obtain ⟨b, _, _, htx, _⟩ := TxTransaction.txSend_ok codec tx tx1 s s1 req hsend
  have hr : tx1.req = some (setReqSeq req tx.seq) := by rw [htx]
  have ht : tx1.timer = some s.timers.length := by rw [htx]
  have hid : tx1.id = tx.id := by rw [htx]
  obtain ⟨txk, sk, t, hrun, h1, h2, h3, _, _⟩ :=
    TxTransaction.timeouts_total k tx1 s1 (setReqSeq req tx.seq) s.timers.length hr ht
  refine ⟨txk, sk, t, { txk with timer := none },
    { s2.stopTimer t with txTrans := mapDelete (s2.stopTimer t).txTrans txk.id },
    hrun, h2, ?_, hr, rfl, ?_, ?_, rfl, rfl, rfl⟩
  · simp only [TxTransaction.recv, h2, h1]
  · exact PfcpServer.armed_stopTimer s2 t
  · intro i
    rw [h3, hid]
    exact lookup_mapDelete s2.txTrans tx.id i

/-- C9 in the scenario: the response arrives after two retransmissions; the
request with sequence number 0x10 is returned and the table is empty. -/
theorem tx_recv_completes_witness :
    (scenarioSent scenarioCodec scenarioReq scenarioPeer 16 0).2.2 = none ∧
    (((scenarioSent scenarioCodec scenarioReq scenarioPeer 16 0).1.timeouts 2
        (scenarioSent scenarioCodec scenarioReq scenarioPeer 16 0).2.1).bind
      (fun r => (r.1.recv r.2 scenarioRsp).map
        (fun q => (q.2.2, q.1.timer, q.2.1.txTrans, q.2.1.writes.length)))) =
      some (some { msgType := 1, seq := 16, body := [96, 0, 4, 0, 0, 0, 0] }, none, [], 3) ∧
    ∃ txk sk, (scenarioSent scenarioCodec scenarioReq scenarioPeer 16 0).1.timeouts 2
        (scenarioSent scenarioCodec scenarioReq scenarioPeer 16 0).2.1 = some (txk, sk) := by
  refine ⟨rfl, by decide, ?_⟩
  obtain ⟨txk, sk, _, _, _, hrun, _⟩ :=
    tx_recv_completes scenarioCodec
      (NewTxTransaction (scenarioStart scenarioPeer 16 0) scenarioPeer 16)
      (scenarioSent scenarioCodec scenarioReq scenarioPeer 16 0).1
      (scenarioStart scenarioPeer 16 0)
      (scenarioSent scenarioCodec scenarioReq scenarioPeer 16 0).2.1
      scenarioServer scenarioReq scenarioRsp 2 rfl
  exact ⟨txk, sk, hrun⟩

/-! ## C10: the timeout of an inbound transaction -/

/-- C10: `RxTransaction.handleTimeout` removes the transaction whatever it
holds: afterwards the inbound table has no entry for the identifier of the
transaction and its other entries are as before, the outbound table, the
writes, the timers and the escalations are as before, and the transaction
itself is unchanged. -/
theorem rx_handleTimeout_removes (rx : RxTransaction) (s : PfcpServer) :
    (rx.handleTimeout s).2.rxTrans.lookup rx.id = none ∧
    (∀ i, (rx.handleTimeout s).2.rxTrans.lookup i =
      if i = rx.id then none else s.rxTrans.lookup i) ∧
    (rx.handleTimeout s).2.txTrans = s.txTrans ∧
    (rx.handleTimeout s).2.writes = s.writes ∧
    (rx.handleTimeout s).2.timers = s.timers ∧
    (rx.handleTimeout s).2.escalated = s.escalated ∧
    (rx.handleTimeout s).1 = rx :=
  ⟨lookup_mapDelete_self s.rxTrans rx.id, fun i => lookup_mapDelete s.rxTrans rx.id i,
    rfl, rfl, rfl, rfl, rfl⟩

/-! ## C11: the lifetime of an inbound transaction is fixed at creation -/

/-- C11: `NewRxTransaction` arms one timer, for the timeout of the
transaction and with the notification `(RX, id)`.  From any state `s1` of the
server with these timers (the transaction may have been put into the inbound
table), every sequence of `send` and `recv` calls, with any outcome, returns
and leaves the timer reference, the timeout, the list of timers (the timer
stays armed, no timer is added) and the inbound table as they were.  The
one timeout event then removes the entry of the transaction and nothing
else, at the deadline fixed at creation, and leaves no armed timer, so that
nothing happens after it. -/
theorem rx_lifetime_fixed (codec : Codec) (s s1 : PfcpServer) (raddr : String) (seq : Nat)
    (ops : List RxOp) (hs1 : s1.timers = (NewRxTransaction s raddr seq).2.timers) :
    (NewRxTransaction s raddr seq).1.timer = some s.timers.length ∧
    (NewRxTransaction s raddr seq).2.timers = s.timers ++
      [{ armedAt := s.now, d := (NewRxTransaction s raddr seq).1.timeout,
         trType := TransType.RX, trID := TransactionID raddr seq, active := true }] ∧
    ∃ rx' s', (NewRxTransaction s raddr seq).1.runOps codec ops s1 = some (rx', s') ∧
      rx'.timer = some s.timers.length ∧
      rx'.timeout = (NewRxTransaction s raddr seq).1.timeout ∧
      s'.timers = (NewRxTransaction s raddr seq).2.timers ∧
      s'.armed s.timers.length = true ∧
      s'.rxTrans = s1.rxTrans ∧
      (∀ i, (rx'.timerFires s').2.rxTrans.lookup i =
        if i = TransactionID raddr seq then none else s1.rxTrans.lookup i) ∧
      (rx'.timerFires s').2.now =
        max s1.now (s.now + (NewRxTransaction s raddr seq).1.timeout) ∧
      (rx'.timerFires s').2.armed s.timers.length = false ∧
      (rx'.timerFires s').1.timerFires (rx'.timerFires s').2 = rx'.timerFires s' := by
  have ht0 : (NewRxTransaction s raddr seq).1.timer = some s.timers.length := rfl
  have hts : (NewRxTransaction s raddr seq).2.timers = s.timers ++
      [{ armedAt := s.now, d := (NewRxTransaction s raddr seq).1.timeout,
         trType := TransType.RX, trID := TransactionID raddr seq, active := true }] := rfl
  refine ⟨ht0, hts, ?_⟩
  obtain ⟨rx', s', hrun, g1, g2, g3, _, g5, g6, _, g8⟩ :=
    RxTransaction.runOps_frame codec ops (NewRxTransaction s raddr seq).1 s1
      (fun h => absurd rfl h)
  have hid : rx'.id = TransactionID raddr seq := g3
  have ht : rx'.timer = some s.timers.length := by rw [g1, ht0]
  have hst : s'.timers = s.timers ++
      [{ armedAt := s.now, d := (NewRxTransaction s raddr seq).1.timeout,
         trType := TransType.RX, trID := TransactionID raddr seq, active := true }] := by
    rw [g5, hs1, hts]
  have hget : s'.timers.get? s.timers.length = some
      { armedAt := s.now, d := (NewRxTransaction s raddr seq).1.timeout,
        trType := TransType.RX, trID := TransactionID raddr seq, active := true } := by
    rw [hst]; simp
  obtain ⟨f1, f2, f3, f4, _, _⟩ :=
    RxTransaction.timerFires_armed rx' s' s.timers.length _ ht hget rfl
  have harm : (rx'.timerFires s').2.armed s.timers.length = false :=
    PfcpServer.armed_of_disarm _ _ _ f2
  refine ⟨rx', s', hrun, ht, g2, by rw [g5, hs1], PfcpServer.armed_append_length s' _ _ rfl hst,
    g6, ?_, ?_, harm, ?_⟩
  · intro i
    rw [f4 i, hid, g6]
  · rw [f3, g8]
  · exact RxTransaction.timerFires_spent _ _ s.timers.length (by rw [f1]; exact ht)
      (PfcpServer.expire_spent _ _ harm)

/-- C11 in the scenario: a request, its response and two duplicates; the
timer made at creation is still the only timer and is armed, and the timeout
event empties the inbound table at t = 4 s. -/
theorem rx_lifetime_fixed_witness :
    ({ (NewRxTransaction scenarioServer scenarioPeer 32).2 with
        rxTrans := mapInsert [] "10.0.0.1:8805-0x20" 0 }).timers =
      (NewRxTransaction scenarioServer scenarioPeer 32).2.timers ∧
    (((NewRxTransaction scenarioServer scenarioPeer 32).1.runOps scenarioCodec
        [RxOp.recv scenarioReq false, RxOp.send scenarioRsp, RxOp.recv scenarioReq true,
         RxOp.recv scenarioReq true]
        { (NewRxTransaction scenarioServer scenarioPeer 32).2 with
          rxTrans := mapInsert [] "10.0.0.1:8805-0x20" 0 }).map
      (fun r => (r.2.timers.map (fun t => (t.d, t.active)), r.2.writes.length,
        (r.1.timerFires r.2).2.rxTrans, (r.1.timerFires r.2).2.now))) =
      some ([(4 * second, true)], 3, [], 4 * second) ∧
    ∃ rx' s', (NewRxTransaction scenarioServer scenarioPeer 32).1.runOps scenarioCodec
        [RxOp.recv scenarioReq false, RxOp.send scenarioRsp, RxOp.recv scenarioReq true,
         RxOp.recv scenarioReq true]
        { (NewRxTransaction scenarioServer scenarioPeer 32).2 with
          rxTrans := mapInsert [] "10.0.0.1:8805-0x20" 0 } = some (rx', s') ∧
      s'.armed 0 = true := by
  refine ⟨rfl, by decide, ?_⟩
  obtain ⟨_, _, rx', s', hrun, _, _, _, harm, _⟩ :=
    rx_lifetime_fixed scenarioCodec scenarioServer
      { (NewRxTransaction scenarioServer scenarioPeer 32).2 with
        rxTrans := mapInsert [] "10.0.0.1:8805-0x20" 0 }
      scenarioPeer 32
      [RxOp.recv scenarioReq false, RxOp.send scenarioRsp, RxOp.recv scenarioReq true,
       RxOp.recv scenarioReq true] rfl
  exact ⟨rx', s', hrun, harm⟩

/-! ## C12: a failed write of a retransmission -/

/-- C12: on a transaction that holds its request and has retransmissions
left (`retransCount < maxRetrans`, a `uint8`), `handleTimeout` returns with
the counter one higher, the request and the bytes as they were, the outbound
table and the escalations untouched, one write of the stored bytes, and a new
armed timer for `retransTimeout` as the timer of the transaction; and with
any other outcomes `cr` of the writes the transaction afterwards is the same
and the server differs in nothing but the recorded outcome of the write. -/
theorem tx_retransmit_ignores_write_error (tx : TxTransaction) (s : PfcpServer) (r : Message)
    (hr : tx.req = some r) (hc : tx.retransCount < tx.maxRetrans) (hm : tx.maxRetrans < 256) :
    ∃ tx' s', tx.handleTimeout s = some (tx', s') ∧
      tx'.retransCount = tx.retransCount + 1 ∧ tx'.req = tx.req ∧ tx'.msgBuf = tx.msgBuf ∧
      tx'.maxRetrans = tx.maxRetrans ∧ tx'.retransTimeout = tx.retransTimeout ∧
      tx'.timer = some s.timers.length ∧
      s'.timers = s.timers ++ [{ armedAt := s.now, d := tx.retransTimeout,
                                 trType := TransType.TX, trID := tx.id, active := true }] ∧
      s'.armed s.timers.length = true ∧
      s'.txTrans = s.txTrans ∧ s'.escalated = s.escalated ∧
      s'.writes = s.writes ++ [{ time := s.now, buf := tx.msgBuf, addr := tx.raddr,
                                 err := connResult s.connResults s.writes.length }] ∧
      ∀ cr, tx.handleTimeout { s with connResults := cr } = some
        (tx', { s' with
                connResults := cr
                writes := s.writes ++ [{ time := s.now, buf := tx.msgBuf, addr := tx.raddr,
                                         err := connResult cr s.writes.length }] }) := by
  have hmod : (tx.retransCount + 1) % 256 = tx.retransCount + 1 :=
    Nat.mod_eq_of_lt (by omega)
  refine ⟨_, _, TxTransaction.handleTimeout_retransmit tx s r hr hc, hmod, rfl, rfl, rfl, rfl,
    rfl, rfl, PfcpServer.armed_append_length _ _ _ rfl rfl, rfl, rfl, rfl, fun cr => ?_⟩
  rw [TxTransaction.handleTimeout_retransmit tx { s with connResults := cr } r hr hc]

/-- C12 in the scenario, on a connection whose second write fails: the first
timeout makes the failed write and leaves counter 1 and an armed timer. -/
theorem tx_retransmit_ignores_write_error_witness :
    ((scenarioSent scenarioCodec scenarioReq scenarioPeer 16 0).1.handleTimeout
        { (scenarioSent scenarioCodec scenarioReq scenarioPeer 16 0).2.1 with
          connResults := [none, some "sendto: network is unreachable"] }).map
      (fun r => (r.1.retransCount, r.1.timer, r.2.writes.map (fun w => w.err),
        r.2.timers.map (fun t => (t.d, t.active)), r.2.escalated.length)) =
      some (1, some 1, [none, some "sendto: network is unreachable"],
        [(second, true), (second, true)], 0) ∧
    ∃ tx' s', (scenarioSent scenarioCodec scenarioReq scenarioPeer 16 0).1.handleTimeout
        { (scenarioSent scenarioCodec scenarioReq scenarioPeer 16 0).2.1 with
          connResults := [none, some "sendto: network is unreachable"] } = some (tx', s') ∧
      tx'.retransCount = 1 := by
  refine ⟨rfl, ?_⟩
  obtain ⟨tx', s', h, hcnt, _⟩ :=
    tx_retransmit_ignores_write_error (scenarioSent scenarioCodec scenarioReq scenarioPeer 16 0).1
      { (scenarioSent scenarioCodec scenarioReq scenarioPeer 16 0).2.1 with
        connResults := [none, some "sendto: network is unreachable"] }
      (setReqSeq scenarioReq 16) rfl (by decide) (by decide)
  exact ⟨tx', s', h, hcnt⟩

/-! ## C13: `send` of an outbound transaction when the serialisation fails -/

/-- C13: when the serialisation of the request (with the sequence number of
the transaction set) fails, `TxTransaction.send` returns the wrapped error,
and the transaction and the server are exactly as before the call: no write,
no timer, and the stored request, the stored bytes, the counter and the
outbound table as they were. -/
theorem tx_send_serialization_failure (codec : Codec) (tx : TxTransaction) (s : PfcpServer)
    (req : Message) (e : String) (h : codec (setReqSeq req tx.seq) = Except.error e) :
    tx.send codec s req = (tx, s, some (wrapf e ("txtr[" ++ tx.id ++ "] send"))) ∧
    (tx.send codec s req).2.1.writes = s.writes ∧
    (tx.send codec s req).2.1.timers = s.timers ∧
    (tx.send codec s req).2.1.txTrans = s.txTrans ∧
    (tx.send codec s req).1.req = tx.req ∧ (tx.send codec s req).1.msgBuf = tx.msgBuf ∧
    (tx.send codec s req).1.timer = tx.timer ∧
    (tx.send codec s req).1.retransCount = tx.retransCount := by
  have hs : tx.send codec s req = (tx, s, some (wrapf e ("txtr[" ++ tx.id ++ "] send"))) := by
    simp [TxTransaction.send, h]
  rw [hs]
  exact ⟨rfl, rfl, rfl, rfl, rfl, rfl, rfl, rfl⟩

/-- C13 with the codec that always fails, on a new transaction of the scenario. -/
theorem tx_send_serialization_failure_witness :
    failingCodec (setReqSeq scenarioReq (NewTxTransaction scenarioServer scenarioPeer 16).seq) =
      Except.error "marshal" ∧
    (NewTxTransaction scenarioServer scenarioPeer 16).send failingCodec scenarioServer
        scenarioReq =
      (NewTxTransaction scenarioServer scenarioPeer 16, scenarioServer,
        some "txtr[10.0.0.1:8805-0x10] send: marshal") := by
  refine ⟨rfl, ?_⟩
  rw [(tx_send_serialization_failure failingCodec
    (NewTxTransaction scenarioServer scenarioPeer 16) scenarioServer scenarioReq "marshal"
    rfl).1]
  decide

/-! ## C14: a successful `send` of an outbound transaction -/

/-- C14: when the serialisation succeeds with bytes `b` and the write
succeeds, `send` on a new transaction returns no error; the stored request is
the given one with the sequence number of the transaction, the stored bytes
are `b`, the one new write carries `b` to the peer address, the one new timer
is armed for the configured `RetransTimeout` and is the timer of the
transaction, and the counter is 0. -/
theorem tx_send_success (codec : Codec) (s0 s : PfcpServer) (raddr : String) (seq : Nat)
    (req : Message) (b : List Nat) (hb : codec (setReqSeq req seq) = Except.ok b)
    (hw : connResult s.connResults s.writes.length = none) :
    ((NewTxTransaction s0 raddr seq).send codec s req).2.2 = none ∧
    ((NewTxTransaction s0 raddr seq).send codec s req).1.req = some (setReqSeq req seq) ∧
    (setReqSeq req seq).seq = seq ∧
    ((NewTxTransaction s0 raddr seq).send codec s req).1.msgBuf = b ∧
    ((NewTxTransaction s0 raddr seq).send codec s req).2.1.writes =
      s.writes ++ [{ time := s.now, buf := b, addr := raddr, err := none }] ∧
    ((NewTxTransaction s0 raddr seq).send codec s req).2.1.timers =
      s.timers ++ [{ armedAt := s.now, d := s0.cfg.RetransTimeout, trType := TransType.TX,
                     trID := TransactionID raddr seq, active := true }] ∧
    ((NewTxTransaction s0 raddr seq).send codec s req).1.timer = some s.timers.length ∧
    ((NewTxTransaction s0 raddr seq).send codec s req).2.1.armed s.timers.length = true ∧
    ((NewTxTransaction s0 raddr seq).send codec s req).1.retransCount = 0 ∧
    ((NewTxTransaction s0 raddr seq).send codec s req).2.1.txTrans = s.txTrans := by
  have hs : (NewTxTransaction s0 raddr seq).send codec s req =
      ({ NewTxTransaction s0 raddr seq with
          req := some (setReqSeq req seq), msgBuf := b, timer := some s.timers.length },
       { s with
          writes := s.writes ++ [{ time := s.now, buf := b, addr := raddr, err := none }]
          timers := s.timers ++ [{ armedAt := s.now, d := s0.cfg.RetransTimeout,
                                   trType := TransType.TX, trID := TransactionID raddr seq,
                                   active := true }] }, none) := by
    simp [TxTransaction.send, NewTxTransaction, hb, hw, TxTransaction.startTimer,
      PfcpServer.AfterFunc, PfcpServer.WriteTo]
  rw [hs]
  exact ⟨rfl, rfl, rfl, rfl, rfl, rfl, rfl,
    PfcpServer.armed_append_length _ _ _ rfl rfl, rfl, rfl⟩

/-- C14 in the scenario: the bytes of the heartbeat request with sequence
number 0x10 are stored and written. -/
theorem tx_send_success_witness :
    scenarioCodec (setReqSeq scenarioReq 16) =
      Except.ok [32, 1, 0, 11, 0, 0, 0, 16, 96, 0, 4, 0, 0, 0, 0] ∧
    connResult scenarioServer.connResults scenarioServer.writes.length = none ∧
    ((NewTxTransaction scenarioServer scenarioPeer 16).send scenarioCodec scenarioServer
        scenarioReq).2.1.writes =
      [{ time := 0, buf := [32, 1, 0, 11, 0, 0, 0, 16, 96, 0, 4, 0, 0, 0, 0],
         addr := scenarioPeer, err := none }] :=
  ⟨rfl, rfl, (tx_send_success scenarioCodec scenarioServer scenarioServer scenarioPeer 16
    scenarioReq [32, 1, 0, 11, 0, 0, 0, 16, 96, 0, 4, 0, 0, 0, 0] rfl rfl).2.2.2.2.1⟩

/-! ## C15: no timeout after completion -/

/-- C15: once `recv` has completed an outbound transaction, the outbound
table has no entry for its identifier; a timeout notification drained then,
or on any later state without such an entry, changes nothing and returns
(no write, no escalation, no panic); the timer the transaction held is not
armed and does not run, and the transaction holds no timer that could fire;
and another response for the identifier finds no entry and is dropped, so
that the completion is not repeated. -/
theorem tx_completed_timeout_noop (tx tx' : TxTransaction) (s s' : PfcpServer) (rsp : Message)
    (r : Option Message) (h : tx.recv s rsp = some (tx', s', r)) :
    s'.txTrans.lookup tx.id = none ∧ tx'.id = tx.id ∧ r = tx.req ∧
    s'.dispatchTxTimeout tx' = some (tx', s') ∧
    (∀ s2 : PfcpServer, s2.txTrans.lookup tx.id = none →
      s2.dispatchTxTimeout tx' = some (tx', s2)) ∧
    (∃ t, tx.timer = some t ∧ s'.armed t = false ∧ s'.runTimer t = none) ∧
    tx'.timer = none ∧ (∀ s2 : PfcpServer, tx'.timerFires s2 = some (tx', s2)) ∧
    (∀ (s2 : PfcpServer) (rsp2 : Message), s2.txTrans.lookup tx.id = none →
      s2.dispatchResponse tx' rsp2 = some (tx', s2, none)) := by
  unfold TxTransaction.recv at h
  cases ht : tx.timer with
  | none => simp [ht] at h
  | some t =>
    simp only [ht, Option.some.injEq, Prod.mk.injEq] at h
    obtain ⟨h1, h2, h3⟩ := h
    have hid : tx'.id = tx.id := by rw [← h1]
    have htm : tx'.timer = none := by rw [← h1]
    have hl : s'.txTrans.lookup tx.id = none := by
      rw [← h2]; exact lookup_mapDelete_self _ _
    have harm : s'.armed t = false := by
      rw [← h2]; exact PfcpServer.armed_stopTimer s t
    have hdisp : ∀ s2 : PfcpServer, s2.txTrans.lookup tx.id = none →
        s2.dispatchTxTimeout tx' = some (tx', s2) := by
      intro s2 hs2
      simp only [PfcpServer.dispatchTxTimeout, hid, hs2]
    refine ⟨hl, hid, h3.symm, hdisp s' hl, hdisp, ⟨t, rfl, harm,
      PfcpServer.runTimer_spent s' t harm⟩, htm, fun s2 => ?_, fun s2 rsp2 hs2 => ?_⟩
    · simp only [TxTransaction.timerFires, htm]
    · simp only [PfcpServer.dispatchResponse, hid, hs2]

/-- C15 in the scenario: the response arrives after one retransmission; the
timeout drained afterwards leaves the two writes and no escalation. -/
theorem tx_completed_timeout_noop_witness :
    (((scenarioAfter 1 scenarioCodec scenarioReq scenarioPeer 16 0).bind
        (fun r => r.1.recv r.2 scenarioRsp)).bind
      (fun q => q.2.1.dispatchTxTimeout q.1)).map
        (fun r => (r.2.writes.length, r.2.escalated.length, r.2.txTrans)) =
      some (2, 0, []) ∧
    ∃ tx s tx' s' r, scenarioAfter 1 scenarioCodec scenarioReq scenarioPeer 16 0 = some (tx, s) ∧
      tx.recv s scenarioRsp = some (tx', s', r) ∧
      s'.dispatchTxTimeout tx' = some (tx', s') := by
  refine ⟨rfl, ?_⟩
  have hrun : ∃ p, scenarioAfter 1 scenarioCodec scenarioReq scenarioPeer 16 0 = some p := by
    cases hp : scenarioAfter 1 scenarioCodec scenarioReq scenarioPeer 16 0 with
    | none => exact absurd hp (by decide)
    | some p => exact ⟨p, rfl⟩
  obtain ⟨p, hp⟩ := hrun
  have hrecv : ∃ q, p.1.recv p.2 scenarioRsp = some q := by
    have hq : ((scenarioAfter 1 scenarioCodec scenarioReq scenarioPeer 16 0).bind
        (fun r => r.1.recv r.2 scenarioRsp)).isSome = true := by decide
    rw [hp] at hq
    exact Option.isSome_iff_exists.mp hq
  obtain ⟨q, hq⟩ := hrecv
  exact ⟨p.1, p.2, q.1, q.2.1, q.2.2, hp, hq,
    (tx_completed_timeout_noop p.1 q.1 p.2 q.2.1 scenarioRsp q.2.2 hq).2.2.2.1⟩

/-! ## C16: what a firing timer does -/

/-- C16: the timer of an outbound transaction is made for `retransTimeout`
and the one of an inbound transaction for its `timeout`; when the runtime
runs such a timer, the server afterwards is the server with the timer spent,
the clock at the deadline, and one more notification, `(TX, id)` or
`(RX, id)`, at the end of the notifications; the function of the timer
leaves the transaction as it is and changes nothing of the server but the
notifications. -/
theorem timer_fire_only_notifies (tx : TxTransaction) (rx : RxTransaction) (s : PfcpServer) :
    (tx.startTimer s).2 = s.timers.length ∧
    (tx.startTimer s).1 =
      { s with
        timers := s.timers ++ [{ armedAt := s.now, d := tx.retransTimeout,
                                 trType := TransType.TX, trID := tx.id, active := true }] } ∧
    (tx.startTimer s).1.runTimer s.timers.length = some
      { s with
        now := max s.now (s.now + tx.retransTimeout)
        timers := s.timers ++ [{ armedAt := s.now, d := tx.retransTimeout,
                                 trType := TransType.TX, trID := tx.id, active := false }]
        timeoutEvents := s.timeoutEvents ++ [(TransType.TX, tx.id)] } ∧
    tx.timerCallback s =
      (tx, { s with timeoutEvents := s.timeoutEvents ++ [(TransType.TX, tx.id)] }) ∧
    (rx.startTimer s).2 = s.timers.length ∧
    (rx.startTimer s).1 =
      { s with
        timers := s.timers ++ [{ armedAt := s.now, d := rx.timeout,
                                 trType := TransType.RX, trID := rx.id, active := true }] } ∧
    (rx.startTimer s).1.runTimer s.timers.length = some
      { s with
        now := max s.now (s.now + rx.timeout)
        timers := s.timers ++ [{ armedAt := s.now, d := rx.timeout,
                                 trType := TransType.RX, trID := rx.id, active := false }]
        timeoutEvents := s.timeoutEvents ++ [(TransType.RX, rx.id)] } ∧
    rx.timerCallback s =
      (rx, { s with timeoutEvents := s.timeoutEvents ++ [(TransType.RX, rx.id)] }) := by
  refine ⟨rfl, rfl, ?_, rfl, rfl, rfl, ?_, rfl⟩
  · simp [PfcpServer.runTimer, TxTransaction.startTimer, PfcpServer.AfterFunc,
      PfcpServer.expire, PfcpServer.NotifyTransTimeout, disarm_append_length]
  · simp [PfcpServer.runTimer, RxTransaction.startTimer, PfcpServer.AfterFunc,
      PfcpServer.expire, PfcpServer.NotifyTransTimeout, disarm_append_length]

/-! ## C17: the retry counter -/

/-- C17: in every state reached from `NewTxTransaction` (with `MaxRetrans` a
`uint8`) by a sequence of `send`, `handleTimeout` and `recv` calls, the
counter is at most `maxRetrans`, which is the configured value; and every
further call that returns leaves the counter at least where it was, raises
it by at most one, raises it exactly when the call is a `handleTimeout` with
`retransCount < maxRetrans`, and leaves it below 256, so that the `uint8`
increment has not wrapped. -/
theorem tx_retransCount_invariant (codec : Codec) (s0 s s' : PfcpServer) (raddr : String)
    (seq : Nat) (ops : List TxOp) (tx' : TxTransaction) (hm : s0.cfg.MaxRetrans < 256)
    (hrun : (NewTxTransaction s0 raddr seq).runOps codec ops s = some (tx', s')) :
    tx'.retransCount ≤ tx'.maxRetrans ∧ tx'.maxRetrans = s0.cfg.MaxRetrans ∧
    tx'.retransCount ≤ 255 ∧
    ∀ (op : TxOp) (s2 s3 : PfcpServer) (tx'' : TxTransaction),
      tx'.step codec op s2 = some (tx'', s3) →
      tx'.retransCount ≤ tx''.retransCount ∧ tx''.retransCount ≤ tx'.retransCount + 1 ∧
      (tx''.retransCount = tx'.retransCount + 1 ↔
        op = TxOp.handleTimeout ∧ tx'.retransCount < tx'.maxRetrans) ∧
      tx''.retransCount ≤ tx''.maxRetrans ∧ tx''.retransCount ≤ 255 := by
  obtain ⟨h1, h2, _⟩ := TxTransaction.runOps_retransCount codec ops
    (NewTxTransaction s0 raddr seq) tx' s s' hm (Nat.zero_le _) hrun
  have hmax : tx'.maxRetrans = s0.cfg.MaxRetrans := h1
  refine ⟨h2, hmax, by omega, fun op s2 s3 tx'' hstep => ?_⟩
  obtain ⟨g1, g2, g3, g4, g5, g6⟩ :=
    TxTransaction.step_retransCount codec op tx' tx'' s2 s3 (by omega) h2 hstep
  exact ⟨g3, g4, g5, g2, by omega⟩

/-- C17 with `MaxRetrans = 255`: after `send` and 255 timeouts the counter
is 255, and the next timeout leaves it there. -/
theorem tx_retransCount_invariant_witness :
    ((NewTxTransaction maxedServer scenarioPeer 16).runOps scenarioCodec
        (TxOp.send scenarioReq :: List.replicate 256 TxOp.handleTimeout) maxedServer).map
      (fun r => r.1.retransCount) = some 255 ∧
    ∃ tx' s', (NewTxTransaction maxedServer scenarioPeer 16).runOps scenarioCodec
        (TxOp.send scenarioReq :: List.replicate 256 TxOp.handleTimeout) maxedServer =
          some (tx', s') ∧ tx'.retransCount ≤ 255 := by
  have hr : ((NewTxTransaction maxedServer scenarioPeer 16).runOps scenarioCodec
        (TxOp.send scenarioReq :: List.replicate 256 TxOp.handleTimeout) maxedServer).map
      (fun r => r.1.retransCount) = some 255 := by
    decide
  refine ⟨hr, ?_⟩
  cases hp : (NewTxTransaction maxedServer scenarioPeer 16).runOps scenarioCodec
      (TxOp.send scenarioReq :: List.replicate 256 TxOp.handleTimeout) maxedServer with
  | none => rw [hp] at hr; simp at hr
  | some p =>
    exact ⟨p.1, p.2, rfl,
      (tx_retransCount_invariant scenarioCodec maxedServer maxedServer p.2 scenarioPeer 16
        (TxOp.send scenarioReq :: List.replicate 256 TxOp.handleTimeout) p.1 (by decide)
        hp).2.2.1⟩

/-! ## C18: the outbound handlers and nil -/

/-- C18: when the serialisation in `send` succeeded (whether or not the write
did), then after any number `k` of timeouts the transaction holds its request
and a timer, and `handleTimeout` and `recv` on it return on every state of
the server; whereas `recv` panics on a new transaction, and on a new
transaction whose `send` failed in the serialisation: there is no timer to
stop. -/
theorem tx_handlers_nil_safe (codec : Codec) (tx : TxTransaction) (s : PfcpServer)
    (req rsp : Message) (b : List Nat) (k : Nat)
    (hb : codec (setReqSeq req tx.seq) = Except.ok b) :
    (∃ txk sk r t,
      (tx.send codec s req).1.timeouts k (tx.send codec s req).2.1 = some (txk, sk) ∧
      txk.req = some r ∧ r = setReqSeq req tx.seq ∧ txk.timer = some t ∧
      (∀ s2 : PfcpServer, ∃ p, txk.handleTimeout s2 = some p) ∧
      (∀ s2 : PfcpServer, ∃ p, txk.recv s2 rsp = some p)) ∧
    (∀ (s0 s2 : PfcpServer) (raddr : String) (seq : Nat),
      (NewTxTransaction s0 raddr seq).recv s2 rsp = none) ∧
    (∀ (codec2 : Codec) (s0 s2 s3 : PfcpServer) (raddr : String) (seq : Nat) (req2 : Message)
      (e : String), codec2 (setReqSeq req2 seq) = Except.error e →
      ((NewTxTransaction s0 raddr seq).send codec2 s2 req2).1.recv s3 rsp = none) := by
  refine ⟨?_, fun s0 s2 raddr seq => rfl, fun codec2 s0 s2 s3 raddr seq req2 e he => ?_⟩
  · have hreq : (tx.send codec s req).1.req = some (setReqSeq req tx.seq) := by
      unfold TxTransaction.send
      cases hw : connResult s.connResults s.writes.length <;>
        simp [hb, PfcpServer.WriteTo, TxTransaction.startTimer, PfcpServer.AfterFunc, hw]
    have htim : (tx.send codec s req).1.timer = some s.timers.length := by
      unfold TxTransaction.send
      cases hw : connResult s.connResults s.writes.length <;>
        simp [hb, PfcpServer.WriteTo, TxTransaction.startTimer, PfcpServer.AfterFunc, hw]
    obtain ⟨txk, sk, t, hrun, h1, h2, _, _, _⟩ :=
      TxTransaction.timeouts_total k (tx.send codec s req).1 (tx.send codec s req).2.1
        (setReqSeq req tx.seq) s.timers.length hreq htim
    refine ⟨txk, sk, setReqSeq req tx.seq, t, hrun, h1, rfl, h2, fun s2 => ?_, fun s2 => ?_⟩
    · by_cases hc : txk.retransCount < txk.maxRetrans
      · exact ⟨_, TxTransaction.handleTimeout_retransmit txk s2 _ h1 hc⟩
      · exact ⟨_, TxTransaction.handleTimeout_escalate txk s2 hc⟩
    · cases hp : txk.recv s2 rsp with
      | none => simp [TxTransaction.recv, h2] at hp
      | some p => exact ⟨p, rfl⟩
  · have he' : codec2 (setReqSeq req2 (NewTxTransaction s0 raddr seq).seq) = Except.error e := he
    have hs : ((NewTxTransaction s0 raddr seq).send codec2 s2 req2).1 =
        NewTxTransaction s0 raddr seq := by
      simp [TxTransaction.send, he']
    rw [hs]
    rfl

/-- C18 on a connection whose first write fails: `send` of the scenario
returns an error, and after two timeouts `recv` still returns the request. -/
theorem tx_handlers_nil_safe_witness :
    scenarioCodec (setReqSeq scenarioReq (NewTxTransaction unreachableServer scenarioPeer 16).seq) =
      Except.ok [32, 1, 0, 11, 0, 0, 0, 16, 96, 0, 4, 0, 0, 0, 0] ∧
    ((NewTxTransaction unreachableServer scenarioPeer 16).send scenarioCodec unreachableServer
        scenarioReq).2.2 ≠ none ∧
    ∃ txk sk p,
      ((NewTxTransaction unreachableServer scenarioPeer 16).send scenarioCodec
          unreachableServer scenarioReq).1.timeouts 2
        ((NewTxTransaction unreachableServer scenarioPeer 16).send scenarioCodec
          unreachableServer scenarioReq).2.1 = some (txk, sk) ∧
      txk.recv sk scenarioRsp = some p := by
  refine ⟨rfl, by decide, ?_⟩
  obtain ⟨txk, sk, _, _, hrun, _, _, _, _, hrecv⟩ :=
    (tx_handlers_nil_safe scenarioCodec (NewTxTransaction unreachableServer scenarioPeer 16)
      unreachableServer scenarioReq scenarioRsp
      [32, 1, 0, 11, 0, 0, 0, 16, 96, 0, 4, 0, 0, 0, 0] 2 rfl).1
  obtain ⟨p, hp⟩ := hrecv sk
  exact ⟨txk, sk, p, hrun, hp⟩

/-! ## C19: the heartbeat handler -/

/-- C19: for every behaviour of `sendRspTo`, `handleHeartbeatRequest` leaves
the server exactly as one call of `sendRspTo` leaves it, namely the call
with the source address of the request and with the heartbeat response
(type 2) that has the sequence number of the request and the recovery time
stamp of the server; the handler returns in the same way when that call
returns an error and when it returns none. -/
theorem heartbeat_response (sendRspTo : PfcpServer → Message → String → PfcpServer × Option String)
    (s : PfcpServer) (req : Message) (addr : String) :
    s.handleHeartbeatRequest sendRspTo req addr =
      (sendRspTo s (NewHeartbeatResponse req.seq (NewRecoveryTimeStamp s.recoveryTime)) addr).1 ∧
    (NewHeartbeatResponse req.seq (NewRecoveryTimeStamp s.recoveryTime)).seq = req.seq ∧
    (NewHeartbeatResponse req.seq (NewRecoveryTimeStamp s.recoveryTime)).msgType = 2 ∧
    (NewHeartbeatResponse req.seq (NewRecoveryTimeStamp s.recoveryTime)).body =
      NewRecoveryTimeStamp s.recoveryTime := by
  refine ⟨?_, rfl, rfl, rfl⟩
  unfold PfcpServer.handleHeartbeatRequest
  simp only
  split <;> simp_all

end Pfcp
